import Mathlib

/-!
Verification development for the latteart capture/test-management client.

The embedding models three layers of the sources:

* the REST repository dispatcher (`TestTargetRepository.ts`,
  `RepositoryServiceDispatcher`): each public method is a sequence of HTTP
  calls against the repository backend.  The backend itself is an external
  collaborator (spec section 6); it is modelled as an explicit state
  (`Env` / `ProjectEnv`) holding test steps, notes and projects, with the
  interface behaviour the spec assumes (`patchTestStep` and friends return the
  freshly persisted object).  Transport failures are injected through a
  network schedule: every HTTP call consumes one entry of `net`, and a `false`
  entry makes that call throw.
* the Vuex actions (`store/operationHistory/actions.ts`): modelled as pure
  functions from the dispatcher replies to ordered lists of store commits and
  deferred compression tasks.
* the readme generator (`JSDocReadmeGenerator.ts`): a pure string function.
-/

namespace LatteArt

/-- Reply envelope used by `RepositoryServiceDispatcher` (`Reply<T>`): either
the payload or an error code. -/
inductive Reply (α : Type) where
  | ok (data : α)
  | failure (code : String)
deriving Repr, DecidableEq

/-- Consume one entry of a network schedule.  An empty schedule means every
remaining call succeeds; a `false` head makes the next HTTP call throw. -/
def takeCall : List Bool → Bool × List Bool
  | [] => (true, [])
  | b :: rest => (b, rest)

/-- A note record as persisted by the repository backend
(`POST /test-results/:id/notes` bodies and responses). -/
structure NoteRec where
  ntype : String
  value : String
  details : String
  tags : List String
  imageFileUrl : String
deriving Repr, DecidableEq

/-- A test step as persisted by the repository backend: the linkage fields a
test step carries for its notes (`intention`, `bugs`, `notices` hold note
ids).  Modelled from the spec (section 6): the backend is an external
collaborator reached through `GET/PATCH /test-results/:id/test-steps/:seq`. -/
structure TestStep where
  intention : Option Nat
  bugs : List Nat
  notices : List Nat
deriving Repr, DecidableEq

/-- Backend state seen by the dispatcher: test steps keyed by sequence number,
notes keyed by server-assigned id, the next fresh note id, and the network
schedule consumed by HTTP calls. -/
structure Env where
  steps : List (Nat × TestStep)
  notes : List (Nat × NoteRec)
  nextNoteId : Nat
  net : List Bool
deriving Repr, DecidableEq

/-- Look up the test step with the given sequence number. -/
def lookupStep (e : Env) (seq : Nat) : Option TestStep :=
  (e.steps.find? (fun p => p.1 == seq)).map Prod.snd

/-- Replace the test step with the given sequence number. -/
def setStep (e : Env) (seq : Nat) (ts : TestStep) : Env :=
  { e with steps := e.steps.map (fun p => if p.1 == seq then (seq, ts) else p) }

/-- Look up the note with the given id. -/
def lookupNote (e : Env) (noteId : Nat) : Option NoteRec :=
  (e.notes.find? (fun p => p.1 == noteId)).map Prod.snd

/-- Endpoint `GET /test-results/:id/test-steps/:seq`.  Throws on an injected transport
failure or when the step does not exist. -/
def httpGetTestStep (seq : Nat) (e : Env) : Except Unit TestStep × Env :=
  match takeCall e.net with
  | (false, net1) => (Except.error (), { e with net := net1 })
  | (true, net1) =>
    let e1 : Env := { e with net := net1 }
    match lookupStep e1 seq with
    | some ts => (Except.ok ts, e1)
    | none => (Except.error (), e1)

/-- Endpoint `PATCH /test-results/:id/test-steps/:seq` with body `{bugs: ...}`.
Returns the freshly persisted test step (spec section 6). -/
def httpPatchBugs (seq : Nat) (bugs : List Nat) (e : Env) :
    Except Unit TestStep × Env :=
  match takeCall e.net with
  | (false, net1) => (Except.error (), { e with net := net1 })
  | (true, net1) =>
    let e1 : Env := { e with net := net1 }
    match lookupStep e1 seq with
    | some ts =>
      let ts1 : TestStep := { ts with bugs := bugs }
      (Except.ok ts1, setStep e1 seq ts1)
    | none => (Except.error (), e1)

/-- Endpoint `PATCH /test-results/:id/test-steps/:seq` with body `{notices: ...}`. -/
def httpPatchNotices (seq : Nat) (notices : List Nat) (e : Env) :
    Except Unit TestStep × Env :=
  match takeCall e.net with
  | (false, net1) => (Except.error (), { e with net := net1 })
  | (true, net1) =>
    let e1 : Env := { e with net := net1 }
    match lookupStep e1 seq with
    | some ts =>
      let ts1 : TestStep := { ts with notices := notices }
      (Except.ok ts1, setStep e1 seq ts1)
    | none => (Except.error (), e1)

/-- Endpoint `PATCH /test-results/:id/test-steps/:seq` with body `{intention: ...}`. -/
def httpPatchIntention (seq : Nat) (i : Option Nat) (e : Env) :
    Except Unit TestStep × Env :=
  match takeCall e.net with
  | (false, net1) => (Except.error (), { e with net := net1 })
  | (true, net1) =>
    let e1 : Env := { e with net := net1 }
    match lookupStep e1 seq with
    | some ts =>
      let ts1 : TestStep := { ts with intention := i }
      (Except.ok ts1, setStep e1 seq ts1)
    | none => (Except.error (), e1)

/-- Endpoint `GET /test-results/:id/notes/:noteId`. -/
def httpGetNote (noteId : Nat) (e : Env) : Except Unit NoteRec × Env :=
  match takeCall e.net with
  | (false, net1) => (Except.error (), { e with net := net1 })
  | (true, net1) =>
    let e1 : Env := { e with net := net1 }
    match lookupNote e1 noteId with
    | some n => (Except.ok n, e1)
    | none => (Except.error (), e1)

/-- Endpoint `POST /test-results/:id/notes`: persists the note under a server-assigned
id and returns it (spec section 6: "assumed to return the freshly persisted
object with server-assigned id").  Image data sent alongside the note is
persisted by the backend; the stored image reference is not modelled (the
claims concern attachment lists and indices). -/
def httpPostNote (note : NoteRec) (e : Env) : Except Unit (Nat × NoteRec) × Env :=
  match takeCall e.net with
  | (false, net1) => (Except.error (), { e with net := net1 })
  | (true, net1) =>
    (Except.ok (e.nextNoteId, note),
      { e with
        net := net1
        notes := e.notes ++ [(e.nextNoteId, note)]
        nextNoteId := e.nextNoteId + 1 })

/-- The gui-side `Note` value built by the dispatcher methods. -/
structure GuiNote where
  id : Option Nat
  sequence : Nat
  value : String
  details : String
  imageFilePath : String
  tags : List String
deriving Repr, DecidableEq

/-- Resolution of a backend-relative image URL against the service URL
(`note.imageFileUrl ? new URL(note.imageFileUrl, this._serviceUrl).toString() : ""`
in the source).  The URL normalization done by the JS `URL` class is
presentation plumbing and is modelled as string concatenation. -/
def resolveImageUrl (serviceUrl url : String) : String :=
  if url = "" then "" else serviceUrl ++ "/" ++ url

/-- JS `list.filter((_, index) => index !== i)`: drop the element at
position `i`, keep everything else in order. -/
def filterIdxNe (l : List Nat) (i : Nat) : List Nat :=
  (l.enum.filter (fun p => p.1 != i)).map Prod.snd

/-- How many test steps the given note id is attached to, counting every slot
(bug list, notice list, intention field) of every test step. -/
def attachedCount (e : Env) (noteId : Nat) : Nat :=
  (e.steps.map (fun p =>
    p.2.bugs.count noteId + p.2.notices.count noteId +
      (if p.2.intention = some noteId then 1 else 0))).sum

/-- Method `RepositoryServiceDispatcher.moveBug`: GET the source step, PATCH it with
the source bug list minus the moved index, GET the destination step, PATCH it
with the destination bug list plus the moved note id, GET the note, and build
the reply.  Any thrown call makes the whole method return the failure reply
without further calls (and without undoing earlier PATCHes). -/
def moveBug (serviceUrl : String) (fromSeq fromIdx destSeq : Nat) (e : Env) :
    Reply (GuiNote × Nat) × Env :=
  match httpGetTestStep fromSeq e with
  | (Except.error _, e1) => (Reply.failure "repository_service_not_found", e1)
  | (Except.ok fromStep, e1) =>
    let fromBugs := fromStep.bugs
    match httpPatchBugs fromSeq (filterIdxNe fromBugs fromIdx) e1 with
    | (Except.error _, e2) => (Reply.failure "repository_service_not_found", e2)
    | (Except.ok _, e2) =>
      match httpGetTestStep destSeq e2 with
      | (Except.error _, e3) => (Reply.failure "repository_service_not_found", e3)
      | (Except.ok destStep, e3) =>
        let destBugs := destStep.bugs
        match httpPatchBugs destSeq (destBugs ++ [fromBugs.getD fromIdx 0]) e3 with
        | (Except.error _, e4) => (Reply.failure "repository_service_not_found", e4)
        | (Except.ok _, e4) =>
          match httpGetNote (fromBugs.getD fromIdx 0) e4 with
          | (Except.error _, e5) => (Reply.failure "repository_service_not_found", e5)
          | (Except.ok note, e5) =>
            (Reply.ok
              ({ id := none
                 sequence := destSeq
                 value := note.value
                 details := note.details
                 imageFilePath := resolveImageUrl serviceUrl note.imageFileUrl
                 tags := note.tags },
                destBugs.length), e5)

/-- Method `RepositoryServiceDispatcher.moveNotice`: same shape as `moveBug` over the
notice linkage list. -/
def moveNotice (serviceUrl : String) (fromSeq fromIdx destSeq : Nat) (e : Env) :
    Reply (GuiNote × Nat) × Env :=
  match httpGetTestStep fromSeq e with
  | (Except.error _, e1) => (Reply.failure "repository_service_not_found", e1)
  | (Except.ok fromStep, e1) =>
    let fromNotices := fromStep.notices
    match httpPatchNotices fromSeq (filterIdxNe fromNotices fromIdx) e1 with
    | (Except.error _, e2) => (Reply.failure "repository_service_not_found", e2)
    | (Except.ok _, e2) =>
      match httpGetTestStep destSeq e2 with
      | (Except.error _, e3) => (Reply.failure "repository_service_not_found", e3)
      | (Except.ok destStep, e3) =>
        let destNotices := destStep.notices
        match httpPatchNotices destSeq (destNotices ++ [fromNotices.getD fromIdx 0]) e3 with
        | (Except.error _, e4) => (Reply.failure "repository_service_not_found", e4)
        | (Except.ok _, e4) =>
          match httpGetNote (fromNotices.getD fromIdx 0) e4 with
          | (Except.error _, e5) => (Reply.failure "repository_service_not_found", e5)
          | (Except.ok note, e5) =>
            (Reply.ok
              ({ id := none
                 sequence := destSeq
                 value := note.value
                 details := note.details
                 imageFilePath := resolveImageUrl serviceUrl note.imageFileUrl
                 tags := note.tags },
                destNotices.length), e5)

/-- Method `RepositoryServiceDispatcher.moveIntention`: GET the source step to learn
the intention note id, PATCH the source intention to null, PATCH the
destination intention to the note id, GET the note and build the reply. -/
def moveIntention (serviceUrl : String) (fromSeq destSeq : Nat) (e : Env) :
    Reply GuiNote × Env :=
  match httpGetTestStep fromSeq e with
  | (Except.error _, e1) => (Reply.failure "repository_service_not_found", e1)
  | (Except.ok fromStep, e1) =>
    match fromStep.intention with
    | none =>
      -- The source step carries no intention: `noteId` is undefined and the
      -- later `GET /notes/undefined` throws.  The claims only concern steps
      -- that do carry an intention; the error reply is returned here.
      (Reply.failure "repository_service_not_found", e1)
    | some noteId =>
      match httpPatchIntention fromSeq none e1 with
      | (Except.error _, e2) => (Reply.failure "repository_service_not_found", e2)
      | (Except.ok _, e2) =>
        match httpPatchIntention destSeq (some noteId) e2 with
        | (Except.error _, e3) => (Reply.failure "repository_service_not_found", e3)
        | (Except.ok _, e3) =>
          match httpGetNote noteId e3 with
          | (Except.error _, e4) => (Reply.failure "repository_service_not_found", e4)
          | (Except.ok note, e4) =>
            (Reply.ok
              { id := none
                sequence := destSeq
                value := note.value
                details := note.details
                imageFilePath := resolveImageUrl serviceUrl note.imageFileUrl
                tags := note.tags }, e4)

/-- Method `RepositoryServiceDispatcher.addBug`: POST the new note, GET the target
test step, PATCH it with the old bug list plus the new note id, and reply with
the saved note and `savedTestStep.bugs.length - 1` as the index. -/
def addBug (serviceUrl : String) (sequence : Nat)
    (summary details : String) (e : Env) : Reply (GuiNote × Nat) × Env :=
  match httpPostNote
      { ntype := "bug", value := summary, details := details,
        tags := [], imageFileUrl := "" } e with
  | (Except.error _, e1) => (Reply.failure "repository_service_not_found", e1)
  | (Except.ok savedNote, e1) =>
    match httpGetTestStep sequence e1 with
    | (Except.error _, e2) => (Reply.failure "repository_service_not_found", e2)
    | (Except.ok step, e2) =>
      match httpPatchBugs sequence (step.bugs ++ [savedNote.1]) e2 with
      | (Except.error _, e3) => (Reply.failure "repository_service_not_found", e3)
      | (Except.ok savedTestStep, e3) =>
        (Reply.ok
          ({ id := some savedNote.1
             sequence := sequence
             value := savedNote.2.value
             details := savedNote.2.details
             imageFilePath := resolveImageUrl serviceUrl savedNote.2.imageFileUrl
             tags := savedNote.2.tags },
            savedTestStep.bugs.length - 1), e3)

/-- Method `RepositoryServiceDispatcher.addNotice`: same shape as `addBug` over the
notice linkage list (the posted note carries the given tags). -/
def addNotice (serviceUrl : String) (sequence : Nat)
    (summary details : String) (tags : List String) (e : Env) :
    Reply (GuiNote × Nat) × Env :=
  match httpPostNote
      { ntype := "notice", value := summary, details := details,
        tags := tags, imageFileUrl := "" } e with
  | (Except.error _, e1) => (Reply.failure "repository_service_not_found", e1)
  | (Except.ok savedNote, e1) =>
    match httpGetTestStep sequence e1 with
    | (Except.error _, e2) => (Reply.failure "repository_service_not_found", e2)
    | (Except.ok step, e2) =>
      match httpPatchNotices sequence (step.notices ++ [savedNote.1]) e2 with
      | (Except.error _, e3) => (Reply.failure "repository_service_not_found", e3)
      | (Except.ok savedTestStep, e3) =>
        (Reply.ok
          ({ id := some savedNote.1
             sequence := sequence
             value := savedNote.2.value
             details := savedNote.2.details
             imageFilePath := resolveImageUrl serviceUrl savedNote.2.imageFileUrl
             tags := savedNote.2.tags },
            savedTestStep.notices.length - 1), e3)

/-- Condition under which the `saveBug` action dispatches `moveBug`
(`actions.ts`): `oldSequence`, `oldIndex` and `newSequence` are all non-null.
There is no check that the source and destination sequences differ. -/
def saveBugDispatchesMove (oldSequence oldIndex newSequence : Option Nat) : Bool :=
  oldSequence.isSome && oldIndex.isSome && newSequence.isSome

/-- Condition under which the `saveNotice` action dispatches `moveNotice`
(`actions.ts`): all three fields non-null AND `oldSequence !== newSequence`. -/
def saveNoticeDispatchesMove (oldSequence oldIndex newSequence : Option Nat) : Bool :=
  oldSequence.isSome && oldIndex.isSome && newSequence.isSome &&
    oldSequence != newSequence

/-- An operation as returned by the repository backend inside a test step
(`testStep.operation` in `resume`). -/
structure BackendOperation where
  sequence : Nat
  windowHandle : String
  screenDef : String
  imageFileUrl : String
  keywordTexts : List String
  inputElements : List String
deriving Repr, DecidableEq

/-- A note as returned by the repository backend inside a test step
(`testStep.intention` / `testStep.bugs[i]` / `testStep.notices[i]`). -/
structure BackendNote where
  id : Nat
  sequence : Nat
  value : String
  details : String
  imageFileUrl : String
  tags : List String
deriving Repr, DecidableEq

/-- A test step of a backend test result (`GET /test-results/:id` payload):
any of the operation, intention, bug list and notice list may be absent. -/
structure BackendTestStep where
  operation : Option BackendOperation
  intention : Option BackendNote
  bugs : Option (List BackendNote)
  notices : Option (List BackendNote)
deriving Repr, DecidableEq

/-- The gui-side `Operation` value object. -/
structure GuiOperation where
  sequence : Nat
  windowHandle : String
  screenDef : String
  imageFilePath : String
  keywordSet : List String
  inputElements : List String
deriving Repr, DecidableEq

/-- Modelled from the spec: `Operation.createFromOtherOperation({other,
overrideParams})` is not among the sources; per the data model (spec section
3, operations are copied with an explicit override set) it builds a copy of
`other` in which exactly the fields named in `overrideParams` are replaced.
The `resume` call site overrides `imageFilePath` and `keywordSet` only, so
every other field — the sequence number included — is taken from `other`. -/
def operationFromOther (other : BackendOperation)
    (imageFilePath : String) (keywordSet : List String) : GuiOperation :=
  { sequence := other.sequence
    windowHandle := other.windowHandle
    screenDef := other.screenDef
    imageFilePath := imageFilePath
    keywordSet := keywordSet
    inputElements := other.inputElements }

/-- Modelled from the spec: `Note.createFromOtherNote({other, overrideParams})`
builds a copy of `other` with exactly the named fields replaced.  The `resume`
call sites override `sequence` (intentions) or `sequence` and `imageFilePath`
(bugs and notices). -/
def noteFromOther (other : BackendNote) (sequence : Nat)
    (imageFilePath : Option String) : GuiNote :=
  { id := some other.id
    sequence := sequence
    value := other.value
    details := other.details
    imageFilePath := imageFilePath.getD other.imageFileUrl
    tags := other.tags }

/-- One restored entry of `resume`'s `operationHistoryItems`. -/
structure OperationHistoryItem where
  operation : Option GuiOperation
  intention : Option GuiNote
  bugs : Option (List GuiNote)
  notices : Option (List GuiNote)
deriving Repr, DecidableEq

/-- The `testResult.testSteps.map((testStep, index) => ...)` body of
`RepositoryServiceDispatcher.resume`: each test step at 0-based position
`index` is rebuilt with `sequence = index + 1`; the sequence is overridden on
the intention, bug and notice notes, while the operation is rebuilt with only
`imageFilePath` and `keywordSet` overridden. -/
def resumeItems (serviceUrl : String) (testSteps : List BackendTestStep) :
    List OperationHistoryItem :=
  testSteps.enum.map (fun p =>
    let sequence := p.1 + 1
    { operation := p.2.operation.map (fun op =>
        operationFromOther op (resolveImageUrl serviceUrl op.imageFileUrl)
          op.keywordTexts)
      intention := p.2.intention.map (fun n => noteFromOther n sequence none)
      bugs := p.2.bugs.map (fun l => l.map (fun n =>
        noteFromOther n sequence (some (resolveImageUrl serviceUrl n.imageFileUrl))))
      notices := p.2.notices.map (fun l => l.map (fun n =>
        noteFromOther n sequence (some (resolveImageUrl serviceUrl n.imageFileUrl)))) })

/-- One entry of the store's operation history (`OperationWithNotes`). -/
structure HistoryEntry where
  operation : GuiOperation
  intention : Option GuiNote
  bugs : Option (List GuiNote)
  notices : Option (List GuiNote)
deriving Repr, DecidableEq

/-- The slice of the Vuex operation-history store state the modelled actions
touch. -/
structure Store where
  history : List HistoryEntry
  coverageSources : List String
  inputElementInfos : List (List String)
  canUpdateModels : Bool
deriving Repr, DecidableEq

/-- Replace the note at `index`, or append when the index is past the end
(index = attachment order, spec section 3). -/
def setNoteAt (l : List GuiNote) (index : Nat) (n : GuiNote) : List GuiNote :=
  if index < l.length then l.set index n else l ++ [n]

/-- A store commit issued by the modelled actions.  The mutation
implementations are not among the sources; they are modelled from the spec
(section 3): history entries are appended in capture order, coverage sources
are accumulated incrementally, and image-URL replacement is a narrow update
keyed by sequence number (plus note index for notes). -/
inductive StoreCommit where
  | addHistory (entry : HistoryEntry)
  | registerCoverageSource (coverageSource : String)
  | registerInputElementInfo (inputElementInfo : List String)
  | setCanUpdateModels (canUpdateModels : Bool)
  | setBug (bug : GuiNote) (index : Nat)
  | replaceTestStepsImageFileUrl (sequence : Nat) (imageFileUrl : String)
  | replaceNoteImageFileUrl (ntype : String) (sequence : Nat) (index : Nat)
      (imageFileUrl : String)
deriving Repr, DecidableEq

/-- Apply one store commit.  Modelled from the spec: `addHistory` appends the
entry; `replaceTestStepsImageFileUrl` replaces only the image path of the
operation with the matching sequence number; `replaceNoteImageFileUrl`
replaces only the image path of the note at the matching sequence and index;
`setBug` writes the bug at its index on the entry with the matching
sequence. -/
def applyCommit (s : Store) : StoreCommit → Store
  | StoreCommit.addHistory entry => { s with history := s.history ++ [entry] }
  | StoreCommit.registerCoverageSource cs =>
      { s with coverageSources := s.coverageSources ++ [cs] }
  | StoreCommit.registerInputElementInfo info =>
      { s with inputElementInfos := s.inputElementInfos ++ [info] }
  | StoreCommit.setCanUpdateModels b => { s with canUpdateModels := b }
  | StoreCommit.setBug bug index =>
      { s with history := s.history.map (fun en =>
          if en.operation.sequence == bug.sequence then
            { en with bugs := some (setNoteAt (en.bugs.getD []) index bug) }
          else en) }
  | StoreCommit.replaceTestStepsImageFileUrl sequence imageFileUrl =>
      { s with history := s.history.map (fun en =>
          if en.operation.sequence == sequence then
            { en with operation := { en.operation with imageFilePath := imageFileUrl } }
          else en) }
  | StoreCommit.replaceNoteImageFileUrl ntype sequence index imageFileUrl =>
      { s with history := s.history.map (fun en =>
          if en.operation.sequence == sequence then
            if ntype = "bug" then
              { en with bugs := (en.bugs.getD []).enum.map (fun q =>
                  if q.1 == index then { q.2 with imageFilePath := imageFileUrl }
                  else q.2) |> some }
            else if ntype = "notice" then
              { en with notices := (en.notices.getD []).enum.map (fun q =>
                  if q.1 == index then { q.2 with imageFilePath := imageFileUrl }
                  else q.2) |> some }
            else en
          else en) }

/-- Apply a list of store commits in order. -/
def applyCommits (s : Store) (cs : List StoreCommit) : Store :=
  cs.foldl applyCommit s

/-- An observable step of an action: either a store commit or the issuing of a
deferred (`setTimeout`) image-compression task. -/
inductive ActionEvent where
  | commit (c : StoreCommit)
  | issueTestStepCompression (sequence : Nat)
  | issueNoteCompression (noteId : Option Nat)
deriving Repr, DecidableEq

/-- The dispatcher reply consumed by the `registerOperation` action. -/
structure RegisterReplyData where
  operation : GuiOperation
  coverageSource : String
  inputElementInfo : Option (List String)
deriving Repr, DecidableEq

/-- The history entry committed by `registerOperation`: the saved operation —
with `inputElements` set from the reply (`operation.inputElements =
inputElementInfo?.inputElements ?? []`) — and no notes. -/
def registerEntry (d : RegisterReplyData) : HistoryEntry :=
  { operation := { d.operation with inputElements := d.inputElementInfo.getD [] }
    intention := none
    bugs := none
    notices := none }

/-- The ordered observable steps of the `registerOperation` action after a
successful dispatcher reply (`actions.ts`): commit the history entry, the
coverage source, the input-element info when present and non-empty, and the
can-update flag; then, when image compression is enabled and the operation
carries an image, issue the deferred compression task. -/
def registerOperationEvents (imageCompressionEnabled : Bool)
    (d : RegisterReplyData) : List ActionEvent :=
  [ActionEvent.commit (StoreCommit.addHistory (registerEntry d)),
   ActionEvent.commit (StoreCommit.registerCoverageSource d.coverageSource)]
  ++ (match d.inputElementInfo with
      | some info =>
        if info.length != 0
        then [ActionEvent.commit (StoreCommit.registerInputElementInfo info)]
        else []
      | none => [])
  ++ [ActionEvent.commit (StoreCommit.setCanUpdateModels true)]
  ++ (if imageCompressionEnabled && (registerEntry d).operation.imageFilePath != ""
      then [ActionEvent.issueTestStepCompression d.operation.sequence]
      else [])

/-- The commits applied by the deferred test-step compression callback of
`registerOperation`: on success, one `replaceTestStepsImageFileUrl` commit
with the service-prefixed URL; on failure the callback throws (`throw
reply2.error`) out of the detached `setTimeout` body, applying no commit. -/
def compressTestStepContinuation (serviceUrl : String) (sequence : Nat) :
    Reply String → List StoreCommit
  | Reply.ok imageFileUrl =>
      [StoreCommit.replaceTestStepsImageFileUrl sequence
        (serviceUrl ++ "/" ++ imageFileUrl)]
  | Reply.failure _ => []

/-- The ordered observable steps of the `recordBug` action (add path) after a
successful dispatcher reply: commit the bug and the can-update flag, then, when
image compression is enabled, issue the deferred note compression task keyed by
the recorded note id. -/
def recordBugEvents (imageCompressionEnabled : Bool)
    (recorded : GuiNote × Nat) : List ActionEvent :=
  [ActionEvent.commit (StoreCommit.setBug recorded.1 recorded.2),
   ActionEvent.commit (StoreCommit.setCanUpdateModels true)]
  ++ (if imageCompressionEnabled
      then [ActionEvent.issueNoteCompression recorded.1.id]
      else [])

/-- The commits applied by the deferred note compression callback of
`recordBug`: on success, one `replaceNoteImageFileUrl` commit keyed by type,
sequence and index; on failure the callback throws, applying no commit. -/
def compressNoteContinuation (ntype : String) (sequence index : Nat) :
    Reply String → List StoreCommit
  | Reply.ok imageFileUrl =>
      [StoreCommit.replaceNoteImageFileUrl ntype sequence index imageFileUrl]
  | Reply.failure _ => []

/-- One entry of the window-handle selector built by `updateScreenHistory`. -/
structure WindowChoice where
  text : String
  value : String
  available : Bool
deriving Repr, DecidableEq

/-- JS `array.filter((wh, index, array) => array.indexOf(wh) === index)`:
keep exactly the first occurrence of every element. -/
def distinctFirstSeen (handles : List String) : List String :=
  (handles.enum.filter (fun p => handles.indexOf p.2 == p.1)).map Prod.snd

/-- The `windowHandles` computation of `updateScreenHistory` (`actions.ts`):
map the history to raw window handles, keep first occurrences, then label the
i-th distinct handle `window(i+1)` while keeping the raw handle as `value`. -/
def updateScreenHistoryWindowHandles (history : List HistoryEntry) :
    List WindowChoice :=
  ((history.map (fun own => own.operation.windowHandle))
    |> distinctFirstSeen
    |>.enum).map (fun p =>
      { text := "window" ++ toString (p.1 + 1)
        value := p.2
        available := false })

/-- Modelled from the spec: `GenerateTestScriptsAction`/`TestScriptGeneratorImpl`
are not among the sources.  Per the spec (sections 4.5 and 7), generating from
zero source operations fails (`GenerationEmpty`); the failure surfaces to the
`generateTestScripts` action as a thrown error whose message is
`generate_test_suite_failed` — the message the action's catch block tests for.
On success the action yields the persisted script bundle URL. -/
def generateTestScriptsAction {α : Type} (sources : List (List α))
    (url : String) : Except String String :=
  if (sources.map List.length).sum = 0 then
    Except.error "generate_test_suite_failed"
  else Except.ok url

/-- The error-code selection of the `generateTestScripts` action's catch block
(`actions.ts`): `optimize ? save_test_scripts_no_section_error :
save_test_scripts_no_operation_error`. -/
def generateTestScriptsErrorCode (optimize : Bool) : String :=
  if optimize then "save_test_scripts_no_section_error"
  else "save_test_scripts_no_operation_error"

/-- The `generateTestScripts` action (`actions.ts`): `optimize` is the local
constant `true`; a thrown `generate_test_suite_failed` is mapped to the
mode-specific error code, any other thrown message is passed through; both are
rendered under the `error.operation_history.` message key. -/
def generateTestScripts {α : Type} (sources : List (List α))
    (url : String) : Except String String :=
  let optimize := true
  match generateTestScriptsAction sources url with
  | Except.ok u => Except.ok u
  | Except.error msg =>
    if msg = "generate_test_suite_failed" then
      Except.error ("error.operation_history." ++ generateTestScriptsErrorCode optimize)
    else
      Except.error ("error.operation_history." ++ msg)

/-- Outcome of one call of the `RESTClient` used by the newer repository
classes: a response carrying a status code and a payload, or a thrown
transport error. -/
inductive RestOutcome where
  | res (status : Nat) (data : String)
  | thrown
deriving Repr, DecidableEq

/-- A `RepositoryAccessResult` (`Reply.ts` interface): success, a rejected
response (`createRepositoryAccessFailure(response)`, carrying the response),
or a connection-refused failure (`createConnectionRefusedFailure()`). -/
inductive AccessResult where
  | success (data : String)
  | accessFailure (status : Nat) (data : String)
  | connectionRefused
deriving Repr, DecidableEq

/-- Method `TestTargetRepository.getTestTarget`: non-200 status yields the
access failure carrying the response; a thrown call yields the
connection-refused failure; otherwise success with the response data. -/
def getTestTarget : RestOutcome → AccessResult
  | RestOutcome.res status data =>
    if status != 200 then AccessResult.accessFailure status data
    else AccessResult.success data
  | RestOutcome.thrown => AccessResult.connectionRefused

/-- Method `ProjectRepository.postProjectForExport`: identical classification shape
(the payload is the export file URL). -/
def postProjectForExport : RestOutcome → AccessResult
  | RestOutcome.res status data =>
    if status != 200 then AccessResult.accessFailure status data
    else AccessResult.success data
  | RestOutcome.thrown => AccessResult.connectionRefused

/-- Outcome of one call of the legacy `RESTClient` used by
`RepositoryServiceDispatcher`.  Modelled from the spec: that client is not
among the sources; per the spec's error taxonomy (section 7) a call can fail
either by transport failure (`BackendUnavailable`) or by a non-success status
from a well-formed request (`BackendRejected`), and the legacy client
surfaces both to its caller as a thrown error. -/
inductive OldRestOutcome (α : Type) where
  | ok (v : α)
  | connectionError
  | httpError (status : Nat)
deriving Repr, DecidableEq

/-- Method `RepositoryServiceDispatcher.getSettings`: the single catch block maps
every thrown outcome to the one fixed error code
`repository_service_not_found`. -/
def getSettings {α : Type} : OldRestOutcome α → Reply α
  | OldRestOutcome.ok v => Reply.ok v
  | OldRestOutcome.connectionError =>
      Reply.failure "repository_service_not_found"
  | OldRestOutcome.httpError _ =>
      Reply.failure "repository_service_not_found"

/-- Backend project store seen by `readProject`: projects in creation order
(id and name), the next fresh project number, and the network schedule. -/
structure ProjectEnv where
  projects : List (String × String)
  nextProjectNum : Nat
  net : List Bool
deriving Repr, DecidableEq

/-- The server-assigned id of the next project `POST /projects` creates. -/
def freshProjectId (e : ProjectEnv) : String :=
  "project" ++ toString e.nextProjectNum

/-- Endpoint `GET /projects`: the project list. -/
def httpGetProjects (e : ProjectEnv) :
    Except Unit (List (String × String)) × ProjectEnv :=
  match takeCall e.net with
  | (false, net1) => (Except.error (), { e with net := net1 })
  | (true, net1) => (Except.ok e.projects, { e with net := net1 })

/-- Endpoint `POST /projects` with body `{name}`: creates a project under a
server-assigned id and returns that id. -/
def httpPostProjects (name : String) (e : ProjectEnv) :
    Except Unit String × ProjectEnv :=
  match takeCall e.net with
  | (false, net1) => (Except.error (), { e with net := net1 })
  | (true, net1) =>
    (Except.ok (freshProjectId e),
      { e with
        net := net1
        projects := e.projects ++ [(freshProjectId e, name)]
        nextProjectNum := e.nextProjectNum + 1 })

/-- Endpoint `GET /projects/:id`: the project data; throws when the id is unknown. -/
def httpGetProject (projectId : String) (e : ProjectEnv) :
    Except Unit (String × String) × ProjectEnv :=
  match takeCall e.net with
  | (false, net1) => (Except.error (), { e with net := net1 })
  | (true, net1) =>
    let e1 : ProjectEnv := { e with net := net1 }
    match e1.projects.find? (fun p => p.1 == projectId) with
    | some p => (Except.ok p, e1)
    | none => (Except.error (), e1)

/-- Method `RepositoryServiceDispatcher.readProject`: GET the project list; when the
given id is absent, POST a new project with empty name and use its id; GET
that project and reply with its data.  Any thrown call yields the failure
reply (error code `code` in the source). -/
def readProject (projectId : String) (e : ProjectEnv) :
    Reply (String × String) × ProjectEnv :=
  match httpGetProjects e with
  | (Except.error _, e1) => (Reply.failure "code", e1)
  | (Except.ok projects, e1) =>
    if (projects.map Prod.fst).contains projectId then
      match httpGetProject projectId e1 with
      | (Except.error _, e2) => (Reply.failure "code", e2)
      | (Except.ok p, e2) => (Reply.ok p, e2)
    else
      match httpPostProjects "" e1 with
      | (Except.error _, e2) => (Reply.failure "code", e2)
      | (Except.ok newId, e2) =>
        match httpGetProject newId e2 with
        | (Except.error _, e3) => (Reply.failure "code", e3)
        | (Except.ok p, e3) => (Reply.ok p, e3)

namespace JSDocReadmeGenerator

/-- One row of the test-suite table: `|index+1|<a href=...>name</a>|topPageUrl|`.
`encodeURI` is the JS builtin, an external collaborator left as the `enc`
parameter (the source applies it twice). -/
def suiteRow (enc : String → String) (p : Nat × (String × String)) : String :=
  "|" ++ toString (p.1 + 1) ++ "|<a href=\"" ++ enc (enc ("./" ++ p.2.1 ++ ".html"))
    ++ "\">" ++ p.2.1 ++ "</a>|" ++ p.2.2 ++ "|"

/-- The test-suite table header. -/
def suiteHeader : String := "\n\n|#|name|top page url|\n|:--|:--|:--|\n"

/-- Method `buildTestSuiteTable`: the heading, then — only when the joined rows are
non-empty — the table header, then the rows joined by newlines. -/
def buildTestSuiteTable (enc : String → String)
    (testSuiteNameToTopPageUrl : List (String × String)) : String :=
  let rows := String.intercalate "\n"
    (testSuiteNameToTopPageUrl.enum.map (suiteRow enc))
  "## Test suites" ++ (if rows.length > 0 then suiteHeader else "") ++ rows

/-- One row of the page-object table: `|index+1|<a href=...>alias</a>|name|`. -/
def pageObjectRow (enc : String → String) (p : Nat × (String × String)) : String :=
  "|" ++ toString (p.1 + 1) ++ "|<a href=\"" ++ enc (enc ("./" ++ p.2.2 ++ ".html"))
    ++ "\">" ++ p.2.2 ++ "</a>|" ++ p.2.1 ++ "|"

/-- The page-object table header. -/
def pageObjectHeader : String := "\n\n|#|name|source|\n|:--|:--|:--|\n"

/-- Method `buildPageObjectTable`: same shape over the page-object map. -/
def buildPageObjectTable (enc : String → String)
    (pageObjectNameToAlias : List (String × String)) : String :=
  let rows := String.intercalate "\n"
    (pageObjectNameToAlias.enum.map (pageObjectRow enc))
  "## Page objects" ++ (if rows.length > 0 then pageObjectHeader else "") ++ rows

/-- Method `JSDocReadmeGenerator.generate`: the two tables joined by a blank line,
with a trailing newline.  JS `Map` iteration order is insertion order, so the
maps are modelled as association lists. -/
def generate (enc : String → String)
    (testSuiteNameToTopPageUrl pageObjectNameToAlias : List (String × String)) :
    String :=
  buildTestSuiteTable enc testSuiteNameToTopPageUrl ++ "\n\n"
    ++ buildPageObjectTable enc pageObjectNameToAlias ++ "\n"

end JSDocReadmeGenerator

theorem env_eta_net (e : Env) (hnet : e.net = []) :
    ({ e with net := ([] : List Bool) } : Env) = e := by
  cases e
  simp_all

theorem find?_replace_self (l : List (Nat × TestStep)) (seq : Nat) (ts' : TestStep)
    (h : (l.find? (fun p => p.1 == seq)).isSome = true) :
    (l.map (fun p => if p.1 == seq then (seq, ts') else p)).find?
      (fun p => p.1 == seq) = some (seq, ts') := by
  induction l with
  | nil => simp at h
  | cons p rest ih =>
    by_cases hp : (p.1 == seq) = true
    · rw [List.map_cons, if_pos hp, List.find?_cons_of_pos]
      simp
    · rw [List.find?_cons_of_neg _ (by simp_all)] at h
      rw [List.map_cons, if_neg hp, List.find?_cons_of_neg _ (by simp_all)]
      exact ih h

theorem find?_replace_ne (l : List (Nat × TestStep)) (seq q : Nat) (ts' : TestStep)
    (h : q ≠ seq) :
    (l.map (fun p => if p.1 == seq then (seq, ts') else p)).find?
      (fun p => p.1 == q) = l.find? (fun p => p.1 == q) := by
  induction l with
  | nil => rfl
  | cons p rest ih =>
    by_cases hp : (p.1 == seq) = true
    · have h1 : p.1 = seq := by simpa using hp
      rw [List.map_cons, if_pos hp,
        List.find?_cons_of_neg _ (by simp [Ne.symm h]),
        List.find?_cons_of_neg _ (by simp [h1, Ne.symm h])]
      exact ih
    · rw [List.map_cons, if_neg hp]
      by_cases hq : (p.1 == q) = true
      · simp [List.find?_cons, hq]
      · rw [List.find?_cons_of_neg _ (by simp_all),
          List.find?_cons_of_neg _ (by simp_all)]
        exact ih

theorem lookupStep_setStep_self (e : Env) (seq : Nat) (ts ts' : TestStep)
    (h : lookupStep e seq = some ts) :
    lookupStep (setStep e seq ts') seq = some ts' := by
  have hs : ((e.steps.find? (fun p => p.1 == seq)).isSome) = true := by
    unfold lookupStep at h
    cases hfind : e.steps.find? (fun p => p.1 == seq) with
    | none => rw [hfind] at h; simp at h
    | some _ => rfl
  unfold lookupStep setStep
  rw [find?_replace_self e.steps seq ts' hs]
  rfl

theorem lookupStep_setStep_ne (e : Env) (seq q : Nat) (ts' : TestStep)
    (h : q ≠ seq) :
    lookupStep (setStep e seq ts') q = lookupStep e q := by
  unfold lookupStep setStep
  rw [find?_replace_ne e.steps seq q ts' h]

theorem lookupNote_setStep (e : Env) (seq : Nat) (ts' : TestStep) (n : Nat) :
    lookupNote (setStep e seq ts') n = lookupNote e n := rfl

theorem setStep_net (e : Env) (seq : Nat) (ts' : TestStep) :
    (setStep e seq ts').net = e.net := rfl

theorem httpGetTestStep_run (seq : Nat) (e : Env) (ts : TestStep)
    (hnet : e.net = []) (h : lookupStep e seq = some ts) :
    httpGetTestStep seq e = (Except.ok ts, e) := by
  unfold httpGetTestStep
  rw [hnet]
  simp [takeCall, env_eta_net e hnet, h]

theorem httpPatchBugs_run (seq : Nat) (bugs : List Nat) (e : Env) (ts : TestStep)
    (hnet : e.net = []) (h : lookupStep e seq = some ts) :
    httpPatchBugs seq bugs e =
      (Except.ok { ts with bugs := bugs }, setStep e seq { ts with bugs := bugs }) := by
  unfold httpPatchBugs
  rw [hnet]
  simp [takeCall, env_eta_net e hnet, h]

theorem httpPatchNotices_run (seq : Nat) (notices : List Nat) (e : Env) (ts : TestStep)
    (hnet : e.net = []) (h : lookupStep e seq = some ts) :
    httpPatchNotices seq notices e =
      (Except.ok { ts with notices := notices },
        setStep e seq { ts with notices := notices }) := by
  unfold httpPatchNotices
  rw [hnet]
  simp [takeCall, env_eta_net e hnet, h]

theorem httpPatchIntention_run (seq : Nat) (i : Option Nat) (e : Env) (ts : TestStep)
    (hnet : e.net = []) (h : lookupStep e seq = some ts) :
    httpPatchIntention seq i e =
      (Except.ok { ts with intention := i },
        setStep e seq { ts with intention := i }) := by
  unfold httpPatchIntention
  rw [hnet]
  simp [takeCall, env_eta_net e hnet, h]

theorem httpGetNote_run (noteId : Nat) (e : Env) (nr : NoteRec)
    (hnet : e.net = []) (h : lookupNote e noteId = some nr) :
    httpGetNote noteId e = (Except.ok nr, e) := by
  unfold httpGetNote
  rw [hnet]
  simp [takeCall, env_eta_net e hnet, h]

theorem httpPostNote_run (note : NoteRec) (e : Env) (hnet : e.net = []) :
    httpPostNote note e =
      (Except.ok (e.nextNoteId, note),
        { e with
          notes := e.notes ++ [(e.nextNoteId, note)]
          nextNoteId := e.nextNoteId + 1 }) := by
  unfold httpPostNote
  rw [hnet]
  simp [takeCall]

theorem filter_enumFrom_keep_all (xs : List Nat) :
    ∀ (m j : Nat), j < m →
      ((xs.enumFrom m).filter (fun p => p.1 != j)).map Prod.snd = xs := by
  induction xs with
  | nil => intro m j _; rfl
  | cons x xs ih =>
    intro m j hj
    have hne : (m != j) = true := by
      simp only [bne_iff_ne, ne_eq]
      omega
    rw [List.enumFrom_cons, List.filter_cons]
    simp only [hne, if_pos]
    rw [List.map_cons, ih (m + 1) j (by omega)]

theorem filter_enumFrom_eraseIdx (xs : List Nat) :
    ∀ (n k : Nat),
      ((xs.enumFrom n).filter (fun p => p.1 != n + k)).map Prod.snd =
        xs.eraseIdx k := by
  induction xs with
  | nil => intro n k; rfl
  | cons x xs ih =>
    intro n k
    rw [List.enumFrom_cons, List.filter_cons]
    cases k with
    | zero =>
      have hz : (n != n + 0) = false := by simp
      simp only [hz, Bool.false_eq_true, if_false]
      rw [filter_enumFrom_keep_all xs (n + 1) (n + 0) (by omega)]
      rfl
    | succ k =>
      have hs : (n != n + (k + 1)) = true := by
        simp only [bne_iff_ne, ne_eq]
        omega
      simp only [hs, if_pos]
      rw [List.map_cons]
      have harg : n + (k + 1) = (n + 1) + k := by omega
      rw [harg, ih (n + 1) k]
      rfl

theorem filterIdxNe_eq_eraseIdx (l : List Nat) (i : Nat) :
    filterIdxNe l i = l.eraseIdx i := by
  unfold filterIdxNe
  have h := filter_enumFrom_eraseIdx l 0 i
  simpa [List.enum] using h

theorem eraseIdx_append_last (l : List Nat) :
    ∀ (i : Nat), i + 1 = l.length → l.eraseIdx i ++ [l.getD i 0] = l := by
  induction l with
  | nil => intro i h; simp at h
  | cons x xs ih =>
    intro i h
    cases i with
    | zero =>
      have hxs : xs = [] := by
        cases xs with
        | nil => rfl
        | cons y ys => simp at h
      subst hxs
      rfl
    | succ k =>
      have hk : k + 1 = xs.length := by
        simpa using h
      simp only [List.eraseIdx, List.getD, List.cons_append, List.cons.injEq, true_and]
      have := ih k hk
      simpa using this

/-- Claim C1: moving a bug is a detach-then-attach pair of PATCH calls with no
rollback: on the concrete backend below — note 7 attached as the only bug of
test step 1, empty test step 2 — a transport failure on the third HTTP call
(the GET of the destination step, after the source detach PATCH succeeded)
makes `moveBug` return the failure reply while the note is left attached to
zero test steps, contradicting the claimed atomicity. -/
theorem C1_moveBug_failure_leaves_note_unattached :
    attachedCount
      { steps := [(1, { intention := none, bugs := [7], notices := [] }),
                  (2, { intention := none, bugs := [], notices := [] })]
        notes := [(7, { ntype := "bug", value := "summary", details := "details",
                        tags := [], imageFileUrl := "" })]
        nextNoteId := 8
        net := [true, true, false] } 7 = 1 ∧
    (moveBug "http://127.0.0.1:3002" 1 0 2
      { steps := [(1, { intention := none, bugs := [7], notices := [] }),
                  (2, { intention := none, bugs := [], notices := [] })]
        notes := [(7, { ntype := "bug", value := "summary", details := "details",
                        tags := [], imageFileUrl := "" })]
        nextNoteId := 8
        net := [true, true, false] }).1 =
      Reply.failure "repository_service_not_found" ∧
    attachedCount
      (moveBug "http://127.0.0.1:3002" 1 0 2
        { steps := [(1, { intention := none, bugs := [7], notices := [] }),
                    (2, { intention := none, bugs := [], notices := [] })]
          notes := [(7, { ntype := "bug", value := "summary", details := "details",
                          tags := [], imageFileUrl := "" })]
          nextNoteId := 8
          net := [true, true, false] }).2 7 = 0 := by
  refine ⟨rfl, rfl, rfl⟩

/-- Claim C4 counterexample: with test step 1 carrying bugs `[10, 20]`,
`saveBug` dispatches a move even when the source and destination sequences are
both 1 (its dispatch condition does not compare them), and that same-step
`moveBug` succeeds yet rewrites the attachment list to `[20, 10]` — the moved
note is re-appended at the end, so the list is not identical before and
after. -/
theorem C4_same_step_move_reorders_bugs :
    saveBugDispatchesMove (some 1) (some 0) (some 1) = true ∧
    (moveBug "http://127.0.0.1:3002" 1 0 1
      { steps := [(1, { intention := none, bugs := [10, 20], notices := [] })]
        notes := [(10, { ntype := "bug", value := "a", details := "b",
                         tags := [], imageFileUrl := "" }),
                  (20, { ntype := "bug", value := "c", details := "d",
                         tags := [], imageFileUrl := "" })]
        nextNoteId := 21
        net := [] }).1 =
      Reply.ok
        ({ id := none, sequence := 1, value := "a", details := "b",
           imageFilePath := "", tags := [] }, 1) ∧
    lookupStep
      (moveBug "http://127.0.0.1:3002" 1 0 1
        { steps := [(1, { intention := none, bugs := [10, 20], notices := [] })]
          notes := [(10, { ntype := "bug", value := "a", details := "b",
                           tags := [], imageFileUrl := "" }),
                    (20, { ntype := "bug", value := "c", details := "d",
                           tags := [], imageFileUrl := "" })]
          nextNoteId := 21
          net := [] }).2 1 =
      some { intention := none, bugs := [20, 10], notices := [] } ∧
    ([20, 10] : List Nat) ≠ [10, 20] := by
  refine ⟨rfl, rfl, rfl, by decide⟩

theorem moveIntention_same_step (su : String) (seq : Nat) (e : Env)
    (ts : TestStep) (n : Nat) (nr : NoteRec)
    (hnet : e.net = []) (hstep : lookupStep e seq = some ts)
    (hint : ts.intention = some n) (hnote : lookupNote e n = some nr) :
    ∀ q, lookupStep (moveIntention su seq seq e).2 q = lookupStep e q := by
  unfold moveIntention
  rw [httpGetTestStep_run seq e ts hnet hstep]
  dsimp only
  rw [hint]
  dsimp only
  rw [httpPatchIntention_run seq none e ts hnet hstep]
  dsimp only
  have hstep2 : lookupStep (setStep e seq { ts with intention := none }) seq =
      some { ts with intention := none } :=
    lookupStep_setStep_self e seq ts _ hstep
  have hnet2 : (setStep e seq { ts with intention := none }).net = [] := hnet
  rw [httpPatchIntention_run seq (some n) _ _ hnet2 hstep2]
  dsimp only
  have hstep3 :
      lookupStep
        (setStep (setStep e seq { ts with intention := none }) seq
          { ts with intention := some n }) seq =
        some { ts with intention := some n } :=
    lookupStep_setStep_self _ seq _ _ hstep2
  have hnet3 :
      (setStep (setStep e seq { ts with intention := none }) seq
        { ts with intention := some n }).net = [] := hnet
  have hnote3 :
      lookupNote
        (setStep (setStep e seq { ts with intention := none }) seq
          { ts with intention := some n }) n = some nr := hnote
  rw [httpGetNote_run n _ nr hnet3 hnote3]
  dsimp only
  intro q
  by_cases hq : q = seq
  · subst hq
    rw [hstep3, hstep]
    cases ts
    simp_all
  · rw [lookupStep_setStep_ne _ seq q _ hq, lookupStep_setStep_ne e seq q _ hq]

theorem moveBug_same_step (su : String) (seq idx : Nat) (e : Env)
    (ts : TestStep) (nr : NoteRec)
    (hnet : e.net = []) (hstep : lookupStep e seq = some ts)
    (hnote : lookupNote e (ts.bugs.getD idx 0) = some nr) :
    lookupStep (moveBug su seq idx seq e).2 seq =
      some { ts with bugs := filterIdxNe ts.bugs idx ++ [ts.bugs.getD idx 0] } := by
  unfold moveBug
  rw [httpGetTestStep_run seq e ts hnet hstep]
  dsimp only
  rw [httpPatchBugs_run seq (filterIdxNe ts.bugs idx) e ts hnet hstep]
  dsimp only
  have hstep2 :
      lookupStep (setStep e seq { ts with bugs := filterIdxNe ts.bugs idx }) seq =
        some { ts with bugs := filterIdxNe ts.bugs idx } :=
    lookupStep_setStep_self e seq ts _ hstep
  have hnet2 : (setStep e seq { ts with bugs := filterIdxNe ts.bugs idx }).net = [] :=
    hnet
  rw [httpGetTestStep_run seq _ _ hnet2 hstep2]
  dsimp only
  rw [httpPatchBugs_run seq _ _ _ hnet2 hstep2]
  dsimp only
  have hnet3 :
      (setStep (setStep e seq { ts with bugs := filterIdxNe ts.bugs idx }) seq
        { ts with bugs := filterIdxNe ts.bugs idx ++ [ts.bugs.getD idx 0] }).net =
        [] := hnet
  have hnote3 :
      lookupNote
        (setStep (setStep e seq { ts with bugs := filterIdxNe ts.bugs idx }) seq
          { ts with bugs := filterIdxNe ts.bugs idx ++ [ts.bugs.getD idx 0] })
        (ts.bugs.getD idx 0) = some nr := hnote
  rw [httpGetNote_run _ _ nr hnet3 hnote3]
  dsimp only
  exact lookupStep_setStep_self _ seq _ _ hstep2

/-- Claim C4 (amended): a move where the source and destination test step
coincide is a no-op for intentions (the same-step `moveIntention` leaves every
test step's attachments as they were) and for notices saved through
`saveNotice` (its dispatch condition skips the move when the source and
destination sequences are equal); but `saveBug` dispatches `moveBug` without
comparing the sequences, and a same-step `moveBug` rewrites the bug list to
`filterIdxNe bugs idx ++ [bugs[idx]]` — the moved note is re-appended at the
end, which restores the original list only when the note was already at the
last index. -/
theorem C4_amended_same_step_move (su : String) :
    (∀ (s i : Nat), saveNoticeDispatchesMove (some s) (some i) (some s) = false) ∧
    (∀ (s i s' : Nat), saveBugDispatchesMove (some s) (some i) (some s') = true) ∧
    (∀ (seq : Nat) (e : Env) (ts : TestStep) (n : Nat) (nr : NoteRec),
      e.net = [] → lookupStep e seq = some ts → ts.intention = some n →
      lookupNote e n = some nr →
      ∀ q, lookupStep (moveIntention su seq seq e).2 q = lookupStep e q) ∧
    (∀ (seq idx : Nat) (e : Env) (ts : TestStep) (nr : NoteRec),
      e.net = [] → lookupStep e seq = some ts →
      lookupNote e (ts.bugs.getD idx 0) = some nr →
      lookupStep (moveBug su seq idx seq e).2 seq =
        some { ts with bugs := filterIdxNe ts.bugs idx ++ [ts.bugs.getD idx 0] }) ∧
    (∀ (l : List Nat) (idx : Nat), idx + 1 = l.length →
      filterIdxNe l idx ++ [l.getD idx 0] = l) := by
  refine ⟨?_, ?_, ?_, ?_, ?_⟩
  · intro s i
    simp [saveNoticeDispatchesMove]
  · intro s i s'
    simp [saveBugDispatchesMove]
  · intro seq e ts n nr hnet hstep hint hnote
    exact moveIntention_same_step su seq e ts n nr hnet hstep hint hnote
  · intro seq idx e ts nr hnet hstep hnote
    exact moveBug_same_step su seq idx e ts nr hnet hstep hnote
  · intro l idx h
    rw [filterIdxNe_eq_eraseIdx]
    exact eraseIdx_append_last l idx h

/-- Claim C4 witness: the amended statement evaluated on concrete backends —
an intention note 5 on step 1 moved onto step 1 stays put, a bug list
`[10, 20]` with index 0 moved onto the same step becomes `[20, 10]`, and
moving the last bug of `[10, 20]` onto the same step restores `[10, 20]`. -/
theorem C4_amended_same_step_move_witness :
    saveNoticeDispatchesMove (some 1) (some 0) (some 1) = false ∧
    saveBugDispatchesMove (some 1) (some 0) (some 1) = true ∧
    lookupStep
      (moveIntention "http://127.0.0.1:3002" 1 1
        { steps := [(1, { intention := some 5, bugs := [], notices := [] })]
          notes := [(5, { ntype := "intention", value := "v", details := "d",
                          tags := [], imageFileUrl := "" })]
          nextNoteId := 6
          net := [] }).2 1 =
      lookupStep
        { steps := [(1, { intention := some 5, bugs := [], notices := [] })]
          notes := [(5, { ntype := "intention", value := "v", details := "d",
                          tags := [], imageFileUrl := "" })]
          nextNoteId := 6
          net := [] } 1 ∧
    lookupStep
      (moveBug "http://127.0.0.1:3002" 1 0 1
        { steps := [(1, { intention := none, bugs := [10, 20], notices := [] })]
          notes := [(10, { ntype := "bug", value := "a", details := "b",
                           tags := [], imageFileUrl := "" }),
                    (20, { ntype := "bug", value := "c", details := "d",
                           tags := [], imageFileUrl := "" })]
          nextNoteId := 21
          net := [] }).2 1 =
      some { intention := none, bugs := [20, 10], notices := [] } ∧
    filterIdxNe [10, 20] 1 ++ [([10, 20] : List Nat).getD 1 0] = [10, 20] := by
  have h := C4_amended_same_step_move "http://127.0.0.1:3002"
  exact ⟨h.1 1 0, h.2.1 1 0 1,
    h.2.2.1 1
      { steps := [(1, { intention := some 5, bugs := [], notices := [] })]
        notes := [(5, { ntype := "intention", value := "v", details := "d",
                        tags := [], imageFileUrl := "" })]
        nextNoteId := 6
        net := [] }
      { intention := some 5, bugs := [], notices := [] } 5
      { ntype := "intention", value := "v", details := "d",
        tags := [], imageFileUrl := "" } rfl rfl rfl rfl 1,
    h.2.2.2.1 1 0
      { steps := [(1, { intention := none, bugs := [10, 20], notices := [] })]
        notes := [(10, { ntype := "bug", value := "a", details := "b",
                         tags := [], imageFileUrl := "" }),
                  (20, { ntype := "bug", value := "c", details := "d",
                         tags := [], imageFileUrl := "" })]
        nextNoteId := 21
        net := [] }
      { intention := none, bugs := [10, 20], notices := [] }
      { ntype := "bug", value := "a", details := "b",
        tags := [], imageFileUrl := "" } rfl rfl rfl,
    h.2.2.2.2 [10, 20] 1 rfl⟩

/-- Claim C8: a successful `addBug` (`addNotice`) call appends the freshly
persisted note id at the end of the target test step's existing bug (notice)
list, preserving every previously attached id and their order, and the
returned index equals the number of notes previously attached to that test
step. -/
theorem C8_add_note_appends_and_returns_prior_count (su : String) (seq : Nat)
    (summary details : String) (tags : List String) (e : Env) (ts : TestStep)
    (hnet : e.net = []) (hstep : lookupStep e seq = some ts) :
    (addBug su seq summary details e).1 =
      Reply.ok
        ({ id := some e.nextNoteId, sequence := seq, value := summary,
           details := details, imageFilePath := "", tags := [] },
          ts.bugs.length) ∧
    lookupStep (addBug su seq summary details e).2 seq =
      some { ts with bugs := ts.bugs ++ [e.nextNoteId] } ∧
    (addNotice su seq summary details tags e).1 =
      Reply.ok
        ({ id := some e.nextNoteId, sequence := seq, value := summary,
           details := details, imageFilePath := "", tags := tags },
          ts.notices.length) ∧
    lookupStep (addNotice su seq summary details tags e).2 seq =
      some { ts with notices := ts.notices ++ [e.nextNoteId] } := by
  refine ⟨?_, ?_, ?_, ?_⟩
  · unfold addBug
    rw [httpPostNote_run _ e hnet]
    dsimp only
    have hget :
        httpGetTestStep seq
          ({ e with
             notes := e.notes ++ [(e.nextNoteId,
               { ntype := "bug", value := summary, details := details,
                 tags := [], imageFileUrl := "" })]
             nextNoteId := e.nextNoteId + 1 } : Env) =
          (Except.ok ts,
            { e with
              notes := e.notes ++ [(e.nextNoteId,
                { ntype := "bug", value := summary, details := details,
                  tags := [], imageFileUrl := "" })]
              nextNoteId := e.nextNoteId + 1 }) :=
      httpGetTestStep_run seq _ ts hnet hstep
    rw [hget]
    dsimp only
    have hpatch :
        httpPatchBugs seq (ts.bugs ++ [e.nextNoteId])
          ({ e with
             notes := e.notes ++ [(e.nextNoteId,
               { ntype := "bug", value := summary, details := details,
                 tags := [], imageFileUrl := "" })]
             nextNoteId := e.nextNoteId + 1 } : Env) =
          (Except.ok { ts with bugs := ts.bugs ++ [e.nextNoteId] },
            setStep
              ({ e with
                 notes := e.notes ++ [(e.nextNoteId,
                   { ntype := "bug", value := summary, details := details,
                     tags := [], imageFileUrl := "" })]
                 nextNoteId := e.nextNoteId + 1 } : Env) seq
              { ts with bugs := ts.bugs ++ [e.nextNoteId] }) :=
      httpPatchBugs_run seq _ _ ts hnet hstep
    rw [hpatch]
    dsimp only
    simp [resolveImageUrl]
  · unfold addBug
    rw [httpPostNote_run _ e hnet]
    dsimp only
    have hget :
        httpGetTestStep seq
          ({ e with
             notes := e.notes ++ [(e.nextNoteId,
               { ntype := "bug", value := summary, details := details,
                 tags := [], imageFileUrl := "" })]
             nextNoteId := e.nextNoteId + 1 } : Env) =
          (Except.ok ts,
            { e with
              notes := e.notes ++ [(e.nextNoteId,
                { ntype := "bug", value := summary, details := details,
                  tags := [], imageFileUrl := "" })]
              nextNoteId := e.nextNoteId + 1 }) :=
      httpGetTestStep_run seq _ ts hnet hstep
    rw [hget]
    dsimp only
    have hpatch :
        httpPatchBugs seq (ts.bugs ++ [e.nextNoteId])
          ({ e with
             notes := e.notes ++ [(e.nextNoteId,
               { ntype := "bug", value := summary, details := details,
                 tags := [], imageFileUrl := "" })]
             nextNoteId := e.nextNoteId + 1 } : Env) =
          (Except.ok { ts with bugs := ts.bugs ++ [e.nextNoteId] },
            setStep
              ({ e with
                 notes := e.notes ++ [(e.nextNoteId,
                   { ntype := "bug", value := summary, details := details,
                     tags := [], imageFileUrl := "" })]
                 nextNoteId := e.nextNoteId + 1 } : Env) seq
              { ts with bugs := ts.bugs ++ [e.nextNoteId] }) :=
      httpPatchBugs_run seq _ _ ts hnet hstep
    rw [hpatch]
    dsimp only
    exact lookupStep_setStep_self _ seq ts _ hstep
  · unfold addNotice
    rw [httpPostNote_run _ e hnet]
    dsimp only
    have hget :
        httpGetTestStep seq
          ({ e with
             notes := e.notes ++ [(e.nextNoteId,
               { ntype := "notice", value := summary, details := details,
                 tags := tags, imageFileUrl := "" })]
             nextNoteId := e.nextNoteId + 1 } : Env) =
          (Except.ok ts,
            { e with
              notes := e.notes ++ [(e.nextNoteId,
                { ntype := "notice", value := summary, details := details,
                  tags := tags, imageFileUrl := "" })]
              nextNoteId := e.nextNoteId + 1 }) :=
      httpGetTestStep_run seq _ ts hnet hstep
    rw [hget]
    dsimp only
    have hpatch :
        httpPatchNotices seq (ts.notices ++ [e.nextNoteId])
          ({ e with
             notes := e.notes ++ [(e.nextNoteId,
               { ntype := "notice", value := summary, details := details,
                 tags := tags, imageFileUrl := "" })]
             nextNoteId := e.nextNoteId + 1 } : Env) =
          (Except.ok { ts with notices := ts.notices ++ [e.nextNoteId] },
            setStep
              ({ e with
                 notes := e.notes ++ [(e.nextNoteId,
                   { ntype := "notice", value := summary, details := details,
                     tags := tags, imageFileUrl := "" })]
                 nextNoteId := e.nextNoteId + 1 } : Env) seq
              { ts with notices := ts.notices ++ [e.nextNoteId] }) :=
      httpPatchNotices_run seq _ _ ts hnet hstep
    rw [hpatch]
    dsimp only
    simp [resolveImageUrl]
  · unfold addNotice
    rw [httpPostNote_run _ e hnet]
    dsimp only
    have hget :
        httpGetTestStep seq
          ({ e with
             notes := e.notes ++ [(e.nextNoteId,
               { ntype := "notice", value := summary, details := details,
                 tags := tags, imageFileUrl := "" })]
             nextNoteId := e.nextNoteId + 1 } : Env) =
          (Except.ok ts,
            { e with
              notes := e.notes ++ [(e.nextNoteId,
                { ntype := "notice", value := summary, details := details,
                  tags := tags, imageFileUrl := "" })]
              nextNoteId := e.nextNoteId + 1 }) :=
      httpGetTestStep_run seq _ ts hnet hstep
    rw [hget]
    dsimp only
    have hpatch :
        httpPatchNotices seq (ts.notices ++ [e.nextNoteId])
          ({ e with
             notes := e.notes ++ [(e.nextNoteId,
               { ntype := "notice", value := summary, details := details,
                 tags := tags, imageFileUrl := "" })]
             nextNoteId := e.nextNoteId + 1 } : Env) =
          (Except.ok { ts with notices := ts.notices ++ [e.nextNoteId] },
            setStep
              ({ e with
                 notes := e.notes ++ [(e.nextNoteId,
                   { ntype := "notice", value := summary, details := details,
                     tags := tags, imageFileUrl := "" })]
                 nextNoteId := e.nextNoteId + 1 } : Env) seq
              { ts with notices := ts.notices ++ [e.nextNoteId] }) :=
      httpPatchNotices_run seq _ _ ts hnet hstep
    rw [hpatch]
    dsimp only
    exact lookupStep_setStep_self _ seq ts _ hstep

/-- Claim C8 witness: on a backend whose test step 3 already carries bug 5 and
notice 6, `addBug`/`addNotice` with fresh note id 9 return index 1 (one note
previously attached) and append id 9 after the existing ids. -/
theorem C8_add_note_appends_witness :
    (addBug "http://127.0.0.1:3002" 3 "s" "d"
      { steps := [(3, { intention := none, bugs := [5], notices := [6] })]
        notes := []
        nextNoteId := 9
        net := [] }).1 =
      Reply.ok
        ({ id := some 9, sequence := 3, value := "s", details := "d",
           imageFilePath := "", tags := [] }, 1) ∧
    lookupStep
      (addBug "http://127.0.0.1:3002" 3 "s" "d"
        { steps := [(3, { intention := none, bugs := [5], notices := [6] })]
          notes := []
          nextNoteId := 9
          net := [] }).2 3 =
      some { intention := none, bugs := [5, 9], notices := [6] } ∧
    (addNotice "http://127.0.0.1:3002" 3 "s" "d" ["t"]
      { steps := [(3, { intention := none, bugs := [5], notices := [6] })]
        notes := []
        nextNoteId := 9
        net := [] }).1 =
      Reply.ok
        ({ id := some 9, sequence := 3, value := "s", details := "d",
           imageFilePath := "", tags := ["t"] }, 1) ∧
    lookupStep
      (addNotice "http://127.0.0.1:3002" 3 "s" "d" ["t"]
        { steps := [(3, { intention := none, bugs := [5], notices := [6] })]
          notes := []
          nextNoteId := 9
          net := [] }).2 3 =
      some { intention := none, bugs := [5], notices := [6, 9] } := by
  have h := C8_add_note_appends_and_returns_prior_count
    "http://127.0.0.1:3002" 3 "s" "d" ["t"]
    { steps := [(3, { intention := none, bugs := [5], notices := [6] })]
      notes := []
      nextNoteId := 9
      net := [] }
    { intention := none, bugs := [5], notices := [6] } rfl rfl
  exact h

/-- Claim C2: generating from zero source operations fails with the
mode-specific error code — `save_test_scripts_no_section_error` under
`optimize = true` (the value the action pins) and
`save_test_scripts_no_operation_error` under `optimize = false` — and the two
codes are distinct, never collapsed into one. -/
theorem C2_generate_zero_operations_error_code :
    (∀ (sources : List (List Nat)) (url : String),
      (sources.map List.length).sum = 0 →
      generateTestScripts sources url =
        Except.error
          ("error.operation_history." ++ generateTestScriptsErrorCode true)) ∧
    generateTestScriptsErrorCode true = "save_test_scripts_no_section_error" ∧
    generateTestScriptsErrorCode false = "save_test_scripts_no_operation_error" ∧
    generateTestScriptsErrorCode true ≠ generateTestScriptsErrorCode false := by
  refine ⟨?_, rfl, rfl, by decide⟩
  intro sources url h
  unfold generateTestScripts generateTestScriptsAction
  rw [h]
  simp

/-- Claim C2 witness: two sources with empty histories make
`generateTestScripts` fail with the no-section error code. -/
theorem C2_generate_zero_operations_witness :
    generateTestScripts ([[], []] : List (List Nat)) "url" =
      Except.error ("error.operation_history." ++ generateTestScriptsErrorCode true) := by
  have h := C2_generate_zero_operations_error_code
  exact h.1 [[], []] "url" rfl

/-- Claim C5 counterexample: `RepositoryServiceDispatcher.getSettings` maps a
transport failure and a rejected (non-success status) response to the very
same failure result with the one fixed code `repository_service_not_found` —
the two failure kinds are conflated, so not every repository access operation
classifies them distinctly. -/
theorem C5_getSettings_conflates_failure_kinds :
    getSettings (OldRestOutcome.connectionError : OldRestOutcome Nat) =
      getSettings (OldRestOutcome.httpError 500) ∧
    getSettings (OldRestOutcome.connectionError : OldRestOutcome Nat) =
      Reply.failure "repository_service_not_found" :=
  ⟨rfl, rfl⟩

/-- Claim C5 (amended): the newer repository classes (`TestTargetRepository`,
`ProjectRepository`) return a failure result rather than throwing and classify
failures into two distinct kinds — a thrown call yields the connection-refused
failure and a non-success status yields the access failure carrying that
response — while the legacy `RepositoryServiceDispatcher` methods such as
`getSettings` also never throw but collapse every failure into the single
fixed code `repository_service_not_found`. -/
theorem C5_amended_failure_classification (status : Nat) (data : String)
    (h : status ≠ 200) :
    getTestTarget RestOutcome.thrown = AccessResult.connectionRefused ∧
    getTestTarget (RestOutcome.res status data) =
      AccessResult.accessFailure status data ∧
    getTestTarget (RestOutcome.res 200 data) = AccessResult.success data ∧
    postProjectForExport RestOutcome.thrown = AccessResult.connectionRefused ∧
    postProjectForExport (RestOutcome.res status data) =
      AccessResult.accessFailure status data ∧
    postProjectForExport (RestOutcome.res 200 data) = AccessResult.success data ∧
    AccessResult.connectionRefused ≠ AccessResult.accessFailure status data ∧
    (∀ (o : OldRestOutcome Nat),
      (∃ v, o = OldRestOutcome.ok v ∧ getSettings o = Reply.ok v) ∨
        getSettings o = Reply.failure "repository_service_not_found") := by
  refine ⟨rfl, ?_, ?_, rfl, ?_, ?_, by simp, ?_⟩
  · simp [getTestTarget, h]
  · simp [getTestTarget]
  · simp [postProjectForExport, h]
  · simp [postProjectForExport]
  · intro o
    cases o with
    | ok v => exact Or.inl ⟨v, rfl, rfl⟩
    | connectionError => exact Or.inr rfl
    | httpError s => exact Or.inr rfl

/-- Claim C5 witness: the amended classification evaluated at status 404. -/
theorem C5_amended_failure_classification_witness :
    getTestTarget RestOutcome.thrown = AccessResult.connectionRefused ∧
    getTestTarget (RestOutcome.res 404 "d") = AccessResult.accessFailure 404 "d" ∧
    getTestTarget (RestOutcome.res 200 "d") = AccessResult.success "d" ∧
    postProjectForExport RestOutcome.thrown = AccessResult.connectionRefused ∧
    postProjectForExport (RestOutcome.res 404 "d") =
      AccessResult.accessFailure 404 "d" ∧
    postProjectForExport (RestOutcome.res 200 "d") = AccessResult.success "d" ∧
    AccessResult.connectionRefused ≠ AccessResult.accessFailure 404 "d" ∧
    (∀ (o : OldRestOutcome Nat),
      (∃ v, o = OldRestOutcome.ok v ∧ getSettings o = Reply.ok v) ∨
        getSettings o = Reply.failure "repository_service_not_found") := by
  have h := C5_amended_failure_classification 404 "d" (by decide)
  exact h

/-- Claim C7 counterexample: a backend test step whose operation carries
sequence number 5 is restored by `resume` at position 0 with the operation
still carrying sequence 5, not the claimed position-based value 1 — only the
notes receive the position-based sequence. -/
theorem C7_resume_keeps_backend_operation_sequence :
    (resumeItems "http://127.0.0.1:3002"
      [{ operation := some { sequence := 5, windowHandle := "w", screenDef := "s",
                             imageFileUrl := "", keywordTexts := [],
                             inputElements := [] },
         intention := none, bugs := none, notices := none }]).map
        (fun item => item.operation.map (fun op => op.sequence)) = [some 5] ∧
    (5 : Nat) ≠ 0 + 1 := by
  refine ⟨rfl, by decide⟩

/-- Claim C7 (amended): `resume` numbers the restored items positionally — the
item built from the i-th backend test step carries sequence `i + 1` on its
intention, bug and notice notes — but the operation itself keeps the
backend-supplied sequence number (its override set does not include the
sequence), so the operation's sequence equals `i + 1` only when the backend
data is already 1-based and gap-free. -/
theorem C7_amended_resume_sequences (su : String)
    (testSteps : List BackendTestStep) :
    (resumeItems su testSteps).length = testSteps.length ∧
    (∀ (i : Nat) (ts0 : BackendTestStep), testSteps.get? i = some ts0 →
      ∃ item, (resumeItems su testSteps).get? i = some item ∧
        item.operation.map (fun op => op.sequence) =
          ts0.operation.map (fun op => op.sequence) ∧
        (∀ n, item.intention = some n → n.sequence = i + 1) ∧
        (∀ l, item.bugs = some l → ∀ n ∈ l, n.sequence = i + 1) ∧
        (∀ l, item.notices = some l → ∀ n ∈ l, n.sequence = i + 1)) := by
  constructor
  · simp [resumeItems]
  · intro i ts0 h
    have hi : (resumeItems su testSteps).get? i =
        some
          { operation := ts0.operation.map (fun op =>
              operationFromOther op (resolveImageUrl su op.imageFileUrl)
                op.keywordTexts)
            intention := ts0.intention.map (fun n => noteFromOther n (i + 1) none)
            bugs := ts0.bugs.map (fun l => l.map (fun n =>
              noteFromOther n (i + 1)
                (some (resolveImageUrl su n.imageFileUrl))))
            notices := ts0.notices.map (fun l => l.map (fun n =>
              noteFromOther n (i + 1)
                (some (resolveImageUrl su n.imageFileUrl)))) } := by
      unfold resumeItems
      rw [List.get?_map, List.get?_enum, h]
      rfl
    refine ⟨_, hi, ?_, ?_, ?_, ?_⟩
    · cases ts0.operation with
      | none => rfl
      | some op => rfl
    · intro n hn
      cases hint : ts0.intention with
      | none => rw [hint] at hn; simp at hn
      | some n0 =>
        rw [hint] at hn
        simp only [Option.map_some] at hn
        have : n = noteFromOther n0 (i + 1) none := by
          simpa using hn.symm
        rw [this]
        rfl
    · intro l hl n hn
      cases hb : ts0.bugs with
      | none => rw [hb] at hl; simp at hl
      | some l0 =>
        rw [hb] at hl
        have hl' : l = l0.map (fun n =>
            noteFromOther n (i + 1) (some (resolveImageUrl su n.imageFileUrl))) := by
          simpa using hl.symm
        subst hl'
        obtain ⟨n0, _, hn0⟩ := List.mem_map.mp hn
        rw [← hn0]
        rfl
    · intro l hl n hn
      cases hb : ts0.notices with
      | none => rw [hb] at hl; simp at hl
      | some l0 =>
        rw [hb] at hl
        have hl' : l = l0.map (fun n =>
            noteFromOther n (i + 1) (some (resolveImageUrl su n.imageFileUrl))) := by
          simpa using hl.symm
        subst hl'
        obtain ⟨n0, _, hn0⟩ := List.mem_map.mp hn
        rw [← hn0]
        rfl

/-- Claim C7 witness: the amended statement evaluated on one backend test step
holding an operation with sequence 5 and an intention note: the restored item
keeps operation sequence 5 and stamps the intention with sequence 1. -/
theorem C7_amended_resume_sequences_witness :
    (resumeItems "http://127.0.0.1:3002"
      [{ operation := some { sequence := 5, windowHandle := "w", screenDef := "s",
                             imageFileUrl := "", keywordTexts := [],
                             inputElements := [] },
         intention := some { id := 9, sequence := 5, value := "v", details := "d",
                             imageFileUrl := "", tags := [] },
         bugs := none, notices := none }]).length = 1 ∧
    ∃ item,
      (resumeItems "http://127.0.0.1:3002"
        [{ operation := some { sequence := 5, windowHandle := "w", screenDef := "s",
                               imageFileUrl := "", keywordTexts := [],
                               inputElements := [] },
           intention := some { id := 9, sequence := 5, value := "v", details := "d",
                               imageFileUrl := "", tags := [] },
           bugs := none, notices := none }]).get? 0 = some item ∧
      item.operation.map (fun op => op.sequence) = some 5 ∧
      (∀ n, item.intention = some n → n.sequence = 0 + 1) := by
  have h := C7_amended_resume_sequences "http://127.0.0.1:3002"
    [{ operation := some { sequence := 5, windowHandle := "w", screenDef := "s",
                           imageFileUrl := "", keywordTexts := [],
                           inputElements := [] },
       intention := some { id := 9, sequence := 5, value := "v", details := "d",
                           imageFileUrl := "", tags := [] },
       bugs := none, notices := none }]
  obtain ⟨item, hitem, hop, hint, _, _⟩ := h.2 0
    { operation := some { sequence := 5, windowHandle := "w", screenDef := "s",
                          imageFileUrl := "", keywordTexts := [],
                          inputElements := [] }
      intention := some { id := 9, sequence := 5, value := "v", details := "d",
                          imageFileUrl := "", tags := [] }
      bugs := none, notices := none } rfl
  exact ⟨h.1, item, hitem, hop, hint⟩

theorem projectEnv_eta_net (e : ProjectEnv) (hnet : e.net = []) :
    ({ e with net := ([] : List Bool) } : ProjectEnv) = e := by
  cases e
  simp_all

/-- Claim C9: `readProject` never fails because the project id is unknown —
when the backend's project list does not contain the id, it first creates a
brand-new project (posted with empty name) and returns that project's data;
when the id is present it returns the stored project; with no backend-call
failure injected, the reply is always a success. -/
theorem C9_readProject_unknown_id_creates_project (projectId : String)
    (e : ProjectEnv) (hnet : e.net = [])
    (hfresh : (e.projects.map Prod.fst).contains (freshProjectId e) = false) :
    ((e.projects.map Prod.fst).contains projectId = false →
      readProject projectId e =
        (Reply.ok (freshProjectId e, ""),
          { e with
            projects := e.projects ++ [(freshProjectId e, "")]
            nextProjectNum := e.nextProjectNum + 1 }) ∧
      (freshProjectId e, "") ∈ (readProject projectId e).2.projects) ∧
    ((e.projects.map Prod.fst).contains projectId = true →
      ∃ nm, readProject projectId e = (Reply.ok (projectId, nm), e)) := by
  have hGetProjects : httpGetProjects e = (Except.ok e.projects, e) := by
    unfold httpGetProjects
    rw [hnet]
    simp [takeCall, projectEnv_eta_net e hnet]
  constructor
  · intro habsent
    have hrun :
        readProject projectId e =
          (Reply.ok (freshProjectId e, ""),
            { e with
              projects := e.projects ++ [(freshProjectId e, "")]
              nextProjectNum := e.nextProjectNum + 1 }) := by
      unfold readProject
      rw [hGetProjects]
      dsimp only
      rw [habsent, if_neg (by simp)]
      have hPost : httpPostProjects "" e =
          (Except.ok (freshProjectId e),
            { e with
              projects := e.projects ++ [(freshProjectId e, "")]
              nextProjectNum := e.nextProjectNum + 1 }) := by
        unfold httpPostProjects
        rw [hnet]
        simp [takeCall]
      rw [hPost]
      dsimp only
      have hfind1 : e.projects.find? (fun p => p.1 == freshProjectId e) = none := by
        rw [List.find?_eq_none]
        intro p hp hbeq
        have heq : p.1 = freshProjectId e := by simpa using hbeq
        have hc : (e.projects.map Prod.fst).contains (freshProjectId e) = true := by
          have hmem : freshProjectId e ∈ e.projects.map Prod.fst := by
            rw [← heq]
            exact List.mem_map_of_mem _ hp
          exact List.elem_iff.mpr hmem
        rw [hc] at hfresh
        simp at hfresh
      have hGetNew :
          httpGetProject (freshProjectId e)
            ({ e with
               projects := e.projects ++ [(freshProjectId e, "")]
               nextProjectNum := e.nextProjectNum + 1 } : ProjectEnv) =
            (Except.ok (freshProjectId e, ""),
              { e with
                projects := e.projects ++ [(freshProjectId e, "")]
                nextProjectNum := e.nextProjectNum + 1 }) := by
        unfold httpGetProject
        rw [hnet]
        dsimp only [takeCall]
        rw [List.find?_append, hfind1]
        simp
      rw [hGetNew]
    refine ⟨hrun, ?_⟩
    rw [hrun]
    simp
  · intro hpresent
    have hmem : projectId ∈ e.projects.map Prod.fst := by
      rw [← List.elem_iff]
      exact hpresent
    obtain ⟨p, hp, hpid⟩ := List.mem_map.mp hmem
    have hsome : (e.projects.find? (fun p => p.1 == projectId)).isSome := by
      rw [List.find?_isSome]
      exact ⟨p, hp, by simp [hpid]⟩
    cases hfind : e.projects.find? (fun p => p.1 == projectId) with
    | none => rw [hfind] at hsome; simp at hsome
    | some q =>
      have hq : q.1 = projectId := by
        have := List.find?_some hfind
        simpa using this
      refine ⟨q.2, ?_⟩
      unfold readProject
      rw [hGetProjects]
      dsimp only
      rw [hpresent, if_pos rfl]
      have hGet : httpGetProject projectId e = (Except.ok q, e) := by
        unfold httpGetProject
        rw [hnet]
        dsimp only [takeCall]
        rw [projectEnv_eta_net e hnet, hfind]
      rw [hGet]
      dsimp only
      rw [← hq]

/-- Claim C9 witness: on a backend holding only project `p1`, reading the
unknown id `zz` creates fresh project `project0` with empty name and returns
it, and reading the present id `p1` returns the stored project. -/
theorem C9_readProject_unknown_id_witness :
    readProject "zz" { projects := [("p1", "n1")], nextProjectNum := 0, net := [] } =
      (Reply.ok ("project0", ""),
        { projects := [("p1", "n1"), ("project0", "")], nextProjectNum := 1,
          net := [] }) ∧
    ("project0", "") ∈
      (readProject "zz"
        { projects := [("p1", "n1")], nextProjectNum := 0, net := [] }).2.projects ∧
    ∃ nm,
      readProject "p1" { projects := [("p1", "n1")], nextProjectNum := 0, net := [] } =
        (Reply.ok ("p1", nm),
          { projects := [("p1", "n1")], nextProjectNum := 0, net := [] }) := by
  have h1 := C9_readProject_unknown_id_creates_project "zz"
    { projects := [("p1", "n1")], nextProjectNum := 0, net := [] } rfl (by decide)
  have h2 := C9_readProject_unknown_id_creates_project "p1"
    { projects := [("p1", "n1")], nextProjectNum := 0, net := [] } rfl (by decide)
  exact ⟨(h1.1 (by decide)).1, (h1.1 (by decide)).2, h2.2 (by decide)⟩

/-- Claim C6: in `registerOperation` the history entry is committed first
(head of the event list) and the deferred image compression — issued only
when compression is enabled and the operation carries an image — comes after
it; the compression continuation on failure applies no commit at all, and on
success changes exactly the image path of the operation with the matching
sequence number, leaving every other entry, every other field, and all
non-history store state unchanged.  The same holds for `recordBug` with the
note continuation keyed by sequence and index. -/
theorem C6_compression_is_deferred_and_narrow :
    (∀ (cfg : Bool) (d : RegisterReplyData),
      (registerOperationEvents cfg d).head? =
        some (ActionEvent.commit (StoreCommit.addHistory (registerEntry d)))) ∧
    (∀ (cfg : Bool) (d : RegisterReplyData),
      cfg = true → (registerEntry d).operation.imageFilePath ≠ "" →
      List.Sublist
        [ActionEvent.commit (StoreCommit.addHistory (registerEntry d)),
         ActionEvent.issueTestStepCompression d.operation.sequence]
        (registerOperationEvents cfg d)) ∧
    (∀ (su : String) (seq : Nat) (code : String) (s : Store),
      applyCommits s (compressTestStepContinuation su seq (Reply.failure code)) = s) ∧
    (∀ (su : String) (seq : Nat) (url : String) (s : Store),
      (applyCommits s (compressTestStepContinuation su seq (Reply.ok url))).coverageSources =
        s.coverageSources ∧
      (applyCommits s (compressTestStepContinuation su seq (Reply.ok url))).inputElementInfos =
        s.inputElementInfos ∧
      (applyCommits s (compressTestStepContinuation su seq (Reply.ok url))).canUpdateModels =
        s.canUpdateModels ∧
      (applyCommits s (compressTestStepContinuation su seq (Reply.ok url))).history.length =
        s.history.length ∧
      (∀ i, (applyCommits s (compressTestStepContinuation su seq (Reply.ok url))).history.get? i =
        (s.history.get? i).map (fun en =>
          if en.operation.sequence == seq then
            { en with operation :=
                { en.operation with imageFilePath := su ++ "/" ++ url } }
          else en))) ∧
    (∀ (cfg : Bool) (recorded : GuiNote × Nat),
      (recordBugEvents cfg recorded).head? =
        some (ActionEvent.commit (StoreCommit.setBug recorded.1 recorded.2))) ∧
    (∀ (recorded : GuiNote × Nat),
      List.Sublist
        [ActionEvent.commit (StoreCommit.setBug recorded.1 recorded.2),
         ActionEvent.issueNoteCompression recorded.1.id]
        (recordBugEvents true recorded)) ∧
    (∀ (ntype : String) (seq idx : Nat) (code : String) (s : Store),
      applyCommits s (compressNoteContinuation ntype seq idx (Reply.failure code)) = s) ∧
    (∀ (seq idx : Nat) (url : String) (s : Store),
      ∀ i, (applyCommits s (compressNoteContinuation "bug" seq idx (Reply.ok url))).history.get? i =
        (s.history.get? i).map (fun en =>
          if en.operation.sequence == seq then
            { en with bugs := some ((en.bugs.getD []).enum.map (fun q =>
                if q.1 == idx then { q.2 with imageFilePath := url } else q.2)) }
          else en)) ∧
    (∀ (l : List GuiNote) (idx : Nat) (url : String),
      (l.enum.map (fun q =>
        if q.1 == idx then { q.2 with imageFilePath := url } else q.2)).length =
        l.length ∧
      (∀ j, j ≠ idx →
        (l.enum.map (fun q =>
          if q.1 == idx then { q.2 with imageFilePath := url } else q.2)).get? j =
          l.get? j) ∧
      (l.enum.map (fun q =>
        if q.1 == idx then { q.2 with imageFilePath := url } else q.2)).get? idx =
        (l.get? idx).map (fun n => { n with imageFilePath := url })) := by
  refine ⟨?_, ?_, ?_, ?_, ?_, ?_, ?_, ?_, ?_⟩
  · intro cfg d
    rfl
  · intro cfg d hcfg himg
    subst hcfg
    unfold registerOperationEvents
    rw [if_pos (by simp [himg])]
    apply List.Sublist.cons₂
    rw [List.singleton_sublist]
    simp
  · intro su seq code s
    rfl
  · intro su seq url s
    refine ⟨rfl, rfl, rfl, ?_, ?_⟩
    · simp [applyCommits, compressTestStepContinuation, applyCommit]
    · intro i
      show (s.history.map _).get? i = _
      rw [List.get?_map]
  · intro cfg recorded
    rfl
  · intro recorded
    unfold recordBugEvents
    rw [if_pos rfl]
    apply List.Sublist.cons₂
    rw [List.singleton_sublist]
    simp
  · intro ntype seq idx code s
    rfl
  · intro seq idx url s i
    show (s.history.map _).get? i = _
    rw [List.get?_map]
    simp
  · intro l idx url
    refine ⟨by simp, ?_, ?_⟩
    · intro j hj
      rw [List.get?_map, List.get?_enum]
      cases h : l.get? j with
      | none => rfl
      | some n =>
        have hbeq : (j == idx) = false := by simpa using hj
        simp [hbeq]
        intro hji
        exact absurd hji hj
    · rw [List.get?_map, List.get?_enum]
      cases h : l.get? idx with
      | none => rfl
      | some n => simp

/-- Claim C6 witness: for a registered operation with sequence 1 carrying an
image, the addHistory commit precedes the issued compression task, and the
note-image patch at index 0 leaves the note at index 1 untouched. -/
theorem C6_compression_is_deferred_and_narrow_witness :
    List.Sublist
      [ActionEvent.commit (StoreCommit.addHistory (registerEntry
        { operation := { sequence := 1, windowHandle := "w", screenDef := "s",
                         imageFilePath := "img", keywordSet := [],
                         inputElements := [] }
          coverageSource := "cs"
          inputElementInfo := none })),
       ActionEvent.issueTestStepCompression 1]
      (registerOperationEvents true
        { operation := { sequence := 1, windowHandle := "w", screenDef := "s",
                         imageFilePath := "img", keywordSet := [],
                         inputElements := [] }
          coverageSource := "cs"
          inputElementInfo := none }) ∧
    (([{ id := some 4, sequence := 1, value := "v", details := "d",
         imageFilePath := "old", tags := [] }] : List GuiNote).enum.map (fun q =>
      if q.1 == 0 then { q.2 with imageFilePath := "u" } else q.2)).get? 1 =
      ([{ id := some 4, sequence := 1, value := "v", details := "d",
          imageFilePath := "old", tags := [] }] : List GuiNote).get? 1 := by
  have h := C6_compression_is_deferred_and_narrow
  exact ⟨h.2.1 true
    { operation := { sequence := 1, windowHandle := "w", screenDef := "s",
                     imageFilePath := "img", keywordSet := [],
                     inputElements := [] }
      coverageSource := "cs"
      inputElementInfo := none } rfl (by decide),
    (h.2.2.2.2.2.2.2.2
      [{ id := some 4, sequence := 1, value := "v", details := "d",
         imageFilePath := "old", tags := [] }] 0 "u").2.1 1 (by decide)⟩

theorem intercalate_go_head (s : String) (bs : List String) :
    ∀ (acc : String), ∃ t, String.intercalate.go acc s bs = acc ++ t := by
  induction bs with
  | nil =>
    intro acc
    exact ⟨"", by simp [String.intercalate.go]⟩
  | cons b bs ih =>
    intro acc
    obtain ⟨t, ht⟩ := ih (acc ++ s ++ b)
    refine ⟨s ++ b ++ t, ?_⟩
    rw [String.intercalate.go, ht]
    simp only [String.append_assoc]

theorem intercalate_cons_length_pos (s a : String) (as : List String)
    (ha : 0 < a.length) : 0 < (String.intercalate s (a :: as)).length := by
  show 0 < (String.intercalate.go a s as).length
  obtain ⟨t, ht⟩ := intercalate_go_head s as a
  rw [ht, String.length_append]
  omega

theorem suiteRow_length_pos (enc : String → String) (p : Nat × (String × String)) :
    0 < (JSDocReadmeGenerator.suiteRow enc p).length := by
  unfold JSDocReadmeGenerator.suiteRow
  simp only [String.length_append]
  have h1 : (0 : Nat) < ("|" : String).length := by decide
  omega

theorem pageObjectRow_length_pos (enc : String → String)
    (p : Nat × (String × String)) :
    0 < (JSDocReadmeGenerator.pageObjectRow enc p).length := by
  unfold JSDocReadmeGenerator.pageObjectRow
  simp only [String.length_append]
  have h1 : (0 : Nat) < ("|" : String).length := by decide
  omega

/-- Claim C10: the generated readme always opens with the `## Test suites`
heading followed by the `## Page objects` heading; an empty map yields just
the bare heading (no table header, no rows); a non-empty map yields the table
header followed by exactly one row per map entry, in insertion order, each
row i carrying the 1-based number `i + 1` in its first column. -/
theorem C10_readme_generation_structure (enc : String → String)
    (ts po : List (String × String)) :
    JSDocReadmeGenerator.generate enc ts po =
      JSDocReadmeGenerator.buildTestSuiteTable enc ts ++ "\n\n"
        ++ JSDocReadmeGenerator.buildPageObjectTable enc po ++ "\n" ∧
    (∃ s1 s2, JSDocReadmeGenerator.generate enc ts po =
      "## Test suites" ++ s1 ++ ("## Page objects" ++ s2)) ∧
    (ts = [] → JSDocReadmeGenerator.buildTestSuiteTable enc ts = "## Test suites") ∧
    (po = [] →
      JSDocReadmeGenerator.buildPageObjectTable enc po = "## Page objects") ∧
    (ts ≠ [] →
      JSDocReadmeGenerator.buildTestSuiteTable enc ts =
        "## Test suites" ++ JSDocReadmeGenerator.suiteHeader
          ++ String.intercalate "\n"
            (ts.enum.map (JSDocReadmeGenerator.suiteRow enc))) ∧
    (po ≠ [] →
      JSDocReadmeGenerator.buildPageObjectTable enc po =
        "## Page objects" ++ JSDocReadmeGenerator.pageObjectHeader
          ++ String.intercalate "\n"
            (po.enum.map (JSDocReadmeGenerator.pageObjectRow enc))) ∧
    (ts.enum.map (JSDocReadmeGenerator.suiteRow enc)).length = ts.length ∧
    (po.enum.map (JSDocReadmeGenerator.pageObjectRow enc)).length = po.length ∧
    (∀ i p, ts.get? i = some p →
      (ts.enum.map (JSDocReadmeGenerator.suiteRow enc)).get? i =
        some (JSDocReadmeGenerator.suiteRow enc (i, p))) ∧
    (∀ i p, po.get? i = some p →
      (po.enum.map (JSDocReadmeGenerator.pageObjectRow enc)).get? i =
        some (JSDocReadmeGenerator.pageObjectRow enc (i, p))) ∧
    (∀ (i : Nat) (p : String × String), ∃ rest,
      JSDocReadmeGenerator.suiteRow enc (i, p) =
        "|" ++ toString (i + 1) ++ "|" ++ rest) ∧
    (∀ (i : Nat) (p : String × String), ∃ rest,
      JSDocReadmeGenerator.pageObjectRow enc (i, p) =
        "|" ++ toString (i + 1) ++ "|" ++ rest) := by
  have hts : ts ≠ [] →
      JSDocReadmeGenerator.buildTestSuiteTable enc ts =
        "## Test suites" ++ JSDocReadmeGenerator.suiteHeader
          ++ String.intercalate "\n"
            (ts.enum.map (JSDocReadmeGenerator.suiteRow enc)) := by
    intro h
    cases ts with
    | nil => exact absurd rfl h
    | cons a as =>
      unfold JSDocReadmeGenerator.buildTestSuiteTable
      dsimp only
      rw [List.enum_cons, List.map_cons]
      rw [if_pos (intercalate_cons_length_pos "\n" _ _
        (suiteRow_length_pos enc (0, a)))]
  have hpo : po ≠ [] →
      JSDocReadmeGenerator.buildPageObjectTable enc po =
        "## Page objects" ++ JSDocReadmeGenerator.pageObjectHeader
          ++ String.intercalate "\n"
            (po.enum.map (JSDocReadmeGenerator.pageObjectRow enc)) := by
    intro h
    cases po with
    | nil => exact absurd rfl h
    | cons a as =>
      unfold JSDocReadmeGenerator.buildPageObjectTable
      dsimp only
      rw [List.enum_cons, List.map_cons]
      rw [if_pos (intercalate_cons_length_pos "\n" _ _
        (pageObjectRow_length_pos enc (0, a)))]
  refine ⟨rfl, ?_, ?_, ?_, hts, hpo, by simp, by simp, ?_, ?_, ?_, ?_⟩
  · refine ⟨(if (String.intercalate "\n"
        (ts.enum.map (JSDocReadmeGenerator.suiteRow enc))).length > 0
        then JSDocReadmeGenerator.suiteHeader else "")
      ++ String.intercalate "\n" (ts.enum.map (JSDocReadmeGenerator.suiteRow enc))
      ++ "\n\n",
      (if (String.intercalate "\n"
        (po.enum.map (JSDocReadmeGenerator.pageObjectRow enc))).length > 0
        then JSDocReadmeGenerator.pageObjectHeader else "")
      ++ String.intercalate "\n" (po.enum.map (JSDocReadmeGenerator.pageObjectRow enc))
      ++ "\n", ?_⟩
    unfold JSDocReadmeGenerator.generate JSDocReadmeGenerator.buildTestSuiteTable
      JSDocReadmeGenerator.buildPageObjectTable
    dsimp only
    simp only [String.append_assoc]
  · intro h
    subst h
    unfold JSDocReadmeGenerator.buildTestSuiteTable
    simp [String.intercalate]
  · intro h
    subst h
    unfold JSDocReadmeGenerator.buildPageObjectTable
    simp [String.intercalate]
  · intro i p h
    rw [List.get?_map, List.get?_enum, h]
    rfl
  · intro i p h
    rw [List.get?_map, List.get?_enum, h]
    rfl
  · intro i p
    refine ⟨"<a href=\"" ++ enc (enc ("./" ++ p.1 ++ ".html")) ++ "\">" ++ p.1
      ++ "</a>|" ++ p.2 ++ "|", ?_⟩
    unfold JSDocReadmeGenerator.suiteRow
    rw [show ("|<a href=\"" : String) = "|" ++ "<a href=\"" by decide]
    simp only [String.append_assoc]
  · intro i p
    refine ⟨"<a href=\"" ++ enc (enc ("./" ++ p.2 ++ ".html")) ++ "\">" ++ p.2
      ++ "</a>|" ++ p.1 ++ "|", ?_⟩
    unfold JSDocReadmeGenerator.pageObjectRow
    rw [show ("|<a href=\"" : String) = "|" ++ "<a href=\"" by decide]
    simp only [String.append_assoc]

/-- Claim C10 witness: the structure theorem evaluated at a one-entry suite
map and an empty page-object map, with the identity function standing in for
`encodeURI`. -/
theorem C10_readme_generation_structure_witness :
    JSDocReadmeGenerator.buildTestSuiteTable id [("a", "u")] =
      "## Test suites" ++ JSDocReadmeGenerator.suiteHeader
        ++ String.intercalate "\n"
          (([("a", "u")] : List (String × String)).enum.map
            (JSDocReadmeGenerator.suiteRow id)) ∧
    JSDocReadmeGenerator.buildPageObjectTable id [] = "## Page objects" ∧
    (([("a", "u")] : List (String × String)).enum.map
      (JSDocReadmeGenerator.suiteRow id)).get? 0 =
      some (JSDocReadmeGenerator.suiteRow id (0, ("a", "u"))) ∧
    (∃ rest, JSDocReadmeGenerator.suiteRow id (0, ("a", "u")) =
      "|" ++ toString (0 + 1) ++ "|" ++ rest) := by
  have h := C10_readme_generation_structure id [("a", "u")] []
  exact ⟨h.2.2.2.2.1 (by simp), h.2.2.2.1 rfl,
    h.2.2.2.2.2.2.2.2.1 0 ("a", "u") rfl,
    h.2.2.2.2.2.2.2.2.2.2.1 0 ("a", "u")⟩

theorem get?_indexOf_of_mem (l : List String) (w : String) :
    w ∈ l → l.get? (l.indexOf w) = some w := by
  induction l with
  | nil => intro h; simp at h
  | cons x xs ih =>
    intro h
    show (x :: xs).get? ((x :: xs).indexOf w) = some w
    by_cases hx : x = w
    · subst hx
      simp [List.indexOf, List.findIdx_cons]
    · have hbeq : (x == w) = false := by simpa using hx
      have hidx : (x :: xs).indexOf w = xs.indexOf w + 1 := by
        simp [List.indexOf, List.findIdx_cons, hbeq]
      rw [hidx, List.get?_cons_succ]
      have hmem : w ∈ xs := by
        rcases List.mem_cons.mp h with h1 | h2
        · exact absurd h1.symm hx
        · exact h2
      exact ih hmem

theorem fst_le_of_mem_enumFrom (xs : List String) :
    ∀ (n : Nat) (p : Nat × String), p ∈ xs.enumFrom n → n ≤ p.1 := by
  induction xs with
  | nil => intro n p hp; simp at hp
  | cons x xs ih =>
    intro n p hp
    rw [List.enumFrom_cons] at hp
    rcases List.mem_cons.mp hp with h1 | h2
    · rw [h1]
    · have := ih (n + 1) p h2
      omega

theorem pairwise_fst_lt_enumFrom (xs : List String) :
    ∀ n, (xs.enumFrom n).Pairwise (fun p q => p.1 < q.1) := by
  induction xs with
  | nil => intro n; simp
  | cons x xs ih =>
    intro n
    rw [List.enumFrom_cons]
    refine List.Pairwise.cons ?_ (ih (n + 1))
    intro q hq
    have := fst_le_of_mem_enumFrom xs (n + 1) q hq
    show n < q.1
    omega

theorem pairwise_fst_lt_filtered (l : List String) :
    (l.enum.filter (fun p => l.indexOf p.2 == p.1)).Pairwise
      (fun p q => p.1 < q.1) :=
  List.Pairwise.sublist (List.filter_sublist _) (pairwise_fst_lt_enumFrom l 0)

theorem mem_filtered_props (l : List String) (p : Nat × String)
    (hp : p ∈ l.enum.filter (fun q => l.indexOf q.2 == q.1)) :
    l.indexOf p.2 = p.1 ∧ l.get? p.1 = some p.2 := by
  have h1 := List.mem_filter.mp hp
  have hidx : l.indexOf p.2 = p.1 := by simpa using h1.2
  have hget : l.get? p.1 = some p.2 := List.mem_enum_iff_get?.mp h1.1
  exact ⟨hidx, hget⟩

theorem distinctFirstSeen_get?_filtered (l : List String) (i : Nat) (a : String)
    (h : (distinctFirstSeen l).get? i = some a) :
    ∃ p, (l.enum.filter (fun q => l.indexOf q.2 == q.1)).get? i = some p ∧
      p.2 = a := by
  unfold distinctFirstSeen at h
  rw [List.get?_map] at h
  cases hp : (l.enum.filter (fun q => l.indexOf q.2 == q.1)).get? i with
  | none => rw [hp] at h; simp at h
  | some p =>
    rw [hp] at h
    exact ⟨p, rfl, by simpa using h⟩

theorem distinctFirstSeen_mem (l : List String) (w : String) :
    w ∈ distinctFirstSeen l ↔ w ∈ l := by
  constructor
  · intro h
    unfold distinctFirstSeen at h
    obtain ⟨p, hp, hpw⟩ := List.mem_map.mp h
    have := (mem_filtered_props l p hp).2
    rw [hpw] at this
    exact List.get?_mem this
  · intro h
    unfold distinctFirstSeen
    refine List.mem_map.mpr ⟨(l.indexOf w, w), ?_, rfl⟩
    refine List.mem_filter.mpr ⟨?_, by simp⟩
    exact List.mem_enum_iff_get?.mpr (get?_indexOf_of_mem l w h)

theorem distinctFirstSeen_indexOf_mono (l : List String) (i j : Nat)
    (a b : String) (hij : i < j)
    (ha : (distinctFirstSeen l).get? i = some a)
    (hb : (distinctFirstSeen l).get? j = some b) :
    l.indexOf a < l.indexOf b := by
  obtain ⟨p, hp, hpa⟩ := distinctFirstSeen_get?_filtered l i a ha
  obtain ⟨q, hq, hqb⟩ := distinctFirstSeen_get?_filtered l j b hb
  obtain ⟨hpl, hpe⟩ := List.get?_eq_some.mp hp
  obtain ⟨hql, hqe⟩ := List.get?_eq_some.mp hq
  have hlt : p.1 < q.1 := by
    have := List.pairwise_iff_get.mp (pairwise_fst_lt_filtered l)
      ⟨i, hpl⟩ ⟨j, hql⟩ hij
    rw [hpe, hqe] at this
    exact this
  have hpmem : p ∈ l.enum.filter (fun q => l.indexOf q.2 == q.1) := by
    rw [← hpe]
    exact List.get_mem _ _ _
  have hqmem : q ∈ l.enum.filter (fun q => l.indexOf q.2 == q.1) := by
    rw [← hqe]
    exact List.get_mem _ _ _
  have hidxp := (mem_filtered_props l p hpmem).1
  have hidxq := (mem_filtered_props l q hqmem).1
  rw [← hpa, ← hqb, hidxp, hidxq]
  exact hlt

theorem distinctFirstSeen_nodup (l : List String) :
    (distinctFirstSeen l).Nodup := by
  unfold distinctFirstSeen
  have hpair :
      (l.enum.filter (fun q => l.indexOf q.2 == q.1)).Pairwise
        (fun p q => p.2 ≠ q.2) := by
    refine List.Pairwise.imp_of_mem ?_ (pairwise_fst_lt_filtered l)
    intro p q hp hq hlt heq
    have h1 := (mem_filtered_props l p hp).1
    have h2 := (mem_filtered_props l q hq).1
    rw [heq, h2] at h1
    omega
  exact List.pairwise_map.mpr hpair

/-- Claim C3: `updateScreenHistory` labels window handles in first-seen order:
the handle list is deduplicated keeping first occurrences
(`distinctFirstSeen`), the i-th surviving handle receives the display label
`window(i+1)` while the raw handle is kept as the `value` field, the
deduplicated list has no duplicates, contains exactly the handles occurring in
the history, and its entries are ordered by strictly increasing index of first
appearance in the raw handle sequence — regardless of how operations of
different windows are interleaved. -/
theorem C3_window_labels_first_seen_order (history : List HistoryEntry) :
    updateScreenHistoryWindowHandles history =
      (distinctFirstSeen
        (history.map (fun own => own.operation.windowHandle))).enum.map
        (fun p =>
          { text := "window" ++ toString (p.1 + 1), value := p.2,
            available := false }) ∧
    (∀ (i : Nat) (a : String),
      (distinctFirstSeen
        (history.map (fun own => own.operation.windowHandle))).get? i = some a →
      (updateScreenHistoryWindowHandles history).get? i =
        some { text := "window" ++ toString (i + 1), value := a,
               available := false }) ∧
    (distinctFirstSeen
      (history.map (fun own => own.operation.windowHandle))).Nodup ∧
    (∀ w,
      w ∈ distinctFirstSeen
        (history.map (fun own => own.operation.windowHandle)) ↔
      w ∈ history.map (fun own => own.operation.windowHandle)) ∧
    (∀ (i j : Nat) (a b : String), i < j →
      (distinctFirstSeen
        (history.map (fun own => own.operation.windowHandle))).get? i = some a →
      (distinctFirstSeen
        (history.map (fun own => own.operation.windowHandle))).get? j = some b →
      (history.map (fun own => own.operation.windowHandle)).indexOf a <
        (history.map (fun own => own.operation.windowHandle)).indexOf b) := by
  refine ⟨rfl, ?_, distinctFirstSeen_nodup _, fun w => distinctFirstSeen_mem _ w,
    fun i j a b hij ha hb => distinctFirstSeen_indexOf_mono _ i j a b hij ha hb⟩
  intro i a ha
  unfold updateScreenHistoryWindowHandles
  rw [List.get?_map, List.get?_enum, ha]
  rfl

/-- Claim C3 witness: the interleaved handle sequence `[w1, w2, w1, w3, w2]`
yields labels `window1 ↦ w1`, `window2 ↦ w2`, `window3 ↦ w3` in first-seen
order. -/
theorem C3_window_labels_first_seen_order_witness :
    (updateScreenHistoryWindowHandles
      (["w1", "w2", "w1", "w3", "w2"].map (fun w =>
        { operation := { sequence := 1, windowHandle := w, screenDef := "s",
                         imageFilePath := "", keywordSet := [],
                         inputElements := [] }
          intention := none, bugs := none, notices := none }))).get? 1 =
      some { text := "window2", value := "w2", available := false } ∧
    (distinctFirstSeen
      ((["w1", "w2", "w1", "w3", "w2"].map (fun w =>
        ({ operation := { sequence := 1, windowHandle := w, screenDef := "s",
                          imageFilePath := "", keywordSet := [],
                          inputElements := [] }
           intention := none, bugs := none,
           notices := none } : HistoryEntry))).map
        (fun own => own.operation.windowHandle))).get? 1 = some "w2" := by
  have h := C3_window_labels_first_seen_order
    (["w1", "w2", "w1", "w3", "w2"].map (fun w =>
      { operation := { sequence := 1, windowHandle := w, screenDef := "s",
                       imageFilePath := "", keywordSet := [],
                       inputElements := [] }
        intention := none, bugs := none, notices := none }))
  have hd :
      (distinctFirstSeen
        ((["w1", "w2", "w1", "w3", "w2"].map (fun w =>
          ({ operation := { sequence := 1, windowHandle := w, screenDef := "s",
                            imageFilePath := "", keywordSet := [],
                            inputElements := [] }
             intention := none, bugs := none,
             notices := none } : HistoryEntry))).map
          (fun own => own.operation.windowHandle))).get? 1 = some "w2" := by decide
  exact ⟨h.2.1 1 "w2" hd, hd⟩

end LatteArt
